import Mathlib

/-!
Verification of the robot-arm motion and coordinate-transform subsystem of the
multi-robot-control repository.  The definitions below are shallow embeddings of
the Python source:

* `src/drivers/kinematics.py` (forward/inverse kinematics) is embedded over `ℝ`,
  with `math.atan2` modelled via `Complex.arg`.
* `src/drivers/robot_arm_driver.py` (axis transform pipeline, soft-limit
  clamping, jog target computation, move-response parsing, program run loop)
  is embedded over `ℚ` so that concrete runs are computable; Python floats are
  modelled as exact rationals/reals, which is what the spec's "within
  floating-point tolerance" phrasing refers to.
-/

namespace RobotArm

/-- Logical / firmware axis letters (the keys of the Python axis dicts). -/
inductive Axis where
  | X
  | Y
  | Z
deriving DecidableEq, Repr

/-- Embedding of the axis-transform configuration of `RobotArmDevice.__init__`
(`_axis_map`, `_axis_map_reverse`, `_axis_invert`, `_axis_scale`,
`_axis_limits`).  A Python dict lookup with a default is modelled as a total
function; an absent scale entry is the value `0` (the code treats a falsy scale
as 1:1), an absent limit entry is `none`, an absent invert entry is `false`. -/
structure AxisConfig where
  axisMap : Axis → Axis
  axisMapReverse : Axis → Axis
  axisInvert : Axis → Bool
  axisScale : Axis → ℚ
  axisLimits : Axis → Option (ℚ × ℚ)

/-- The driver's default construction-time configuration: identity mapping,
no inversion, no scaling, no soft limits (source lines 173-177). -/
def identityConfig : AxisConfig :=
  { axisMap := fun a => a
    axisMapReverse := fun a => a
    axisInvert := fun _ => false
    axisScale := fun _ => 0
    axisLimits := fun _ => none }

/-- `RobotArmDevice._degrees_to_firmware`: divide by the per-axis scale,
1:1 when the scale is absent/zero. -/
def degrees_to_firmware (cfg : AxisConfig) (x y z : ℚ) : ℚ × ℚ × ℚ :=
  let f : Axis → ℚ → ℚ := fun a v => if cfg.axisScale a = 0 then v else v / cfg.axisScale a
  (f Axis.X x, f Axis.Y y, f Axis.Z z)

/-- `RobotArmDevice._firmware_to_degrees`: multiply by the per-axis scale,
1:1 when the scale is absent/zero. -/
def firmware_to_degrees (cfg : AxisConfig) (x y z : ℚ) : ℚ × ℚ × ℚ :=
  let f : Axis → ℚ → ℚ := fun a v => if cfg.axisScale a = 0 then v else v * cfg.axisScale a
  (f Axis.X x, f Axis.Y y, f Axis.Z z)

/-- `RobotArmDevice._apply_invert`: negate the axes flagged inverted. -/
def apply_invert (cfg : AxisConfig) (x y z : ℚ) : ℚ × ℚ × ℚ :=
  ((if cfg.axisInvert Axis.X then -x else x),
   (if cfg.axisInvert Axis.Y then -y else y),
   (if cfg.axisInvert Axis.Z then -z else z))

/-- `RobotArmDevice._map_outgoing`: scale, then invert, then relabel each
firmware letter with the logical axis wired to it via `_axis_map_reverse`. -/
def map_outgoing (cfg : AxisConfig) (x y z : ℚ) : ℚ × ℚ × ℚ :=
  let s := degrees_to_firmware cfg x y z
  let i := apply_invert cfg s.1 s.2.1 s.2.2
  let logical : Axis → ℚ := fun a =>
    match a with
    | Axis.X => i.1
    | Axis.Y => i.2.1
    | Axis.Z => i.2.2
  (logical (cfg.axisMapReverse Axis.X),
   logical (cfg.axisMapReverse Axis.Y),
   logical (cfg.axisMapReverse Axis.Z))

/-- `RobotArmDevice._map_incoming`: unmap via `_axis_map`, un-invert, unscale. -/
def map_incoming (cfg : AxisConfig) (fwx fwy fwz : ℚ) : ℚ × ℚ × ℚ :=
  let firmware : Axis → ℚ := fun a =>
    match a with
    | Axis.X => fwx
    | Axis.Y => fwy
    | Axis.Z => fwz
  let lx := firmware (cfg.axisMap Axis.X)
  let ly := firmware (cfg.axisMap Axis.Y)
  let lz := firmware (cfg.axisMap Axis.Z)
  let i := apply_invert cfg lx ly lz
  firmware_to_degrees cfg i.1 i.2.1 i.2.2

/-- Result of `RobotArmDevice._clamp_to_limits`: the clamped triple plus the
set of axes that were clamped (the Python `clamped` dict, one flag per axis). -/
structure ClampResult where
  x : ℚ
  y : ℚ
  z : ℚ
  touchedX : Bool
  touchedY : Bool
  touchedZ : Bool
deriving DecidableEq, Repr

/-- One per-axis step of `_clamp_to_limits`: below the minimum snaps to the
minimum, above the maximum snaps to the maximum, otherwise unchanged. -/
def clampAxis (lim : Option (ℚ × ℚ)) (v : ℚ) : ℚ × Bool :=
  match lim with
  | none => (v, false)
  | some (lo, hi) =>
      if v < lo then (lo, true)
      else if v > hi then (hi, true)
      else (v, false)

/-- `RobotArmDevice._clamp_to_limits`, all three axes. -/
def clamp_to_limits (cfg : AxisConfig) (x y z : ℚ) : ClampResult :=
  let cx := clampAxis (cfg.axisLimits Axis.X) x
  let cy := clampAxis (cfg.axisLimits Axis.Y) y
  let cz := clampAxis (cfg.axisLimits Axis.Z) z
  ⟨cx.1, cy.1, cz.1, cx.2, cy.2, cz.2⟩

/-- The absolute jog target computed by `RobotArmDevice.jog`: the tracked
logical position with `dist` added on the named axis only. -/
def jog_target (px py pz : ℚ) (axis : Axis) (dist : ℚ) : ℚ × ℚ × ℚ :=
  match axis with
  | Axis.X => (px + dist, py, pz)
  | Axis.Y => (px, py + dist, pz)
  | Axis.Z => (px, py, pz + dist)

/-- The firmware-coordinate triple that `jog` puts into its single absolute
`G1 X.. Y.. Z.. F..` command: target, soft-limit clamp, then `_map_outgoing`. -/
def jog_command (cfg : AxisConfig) (px py pz : ℚ) (axis : Axis) (dist : ℚ) :
    ℚ × ℚ × ℚ :=
  let t := jog_target px py pz axis dist
  let c := clamp_to_limits cfg t.1 t.2.1 t.2.2
  map_outgoing cfg c.x c.y c.z

/-! ### Response parsing (`MOVE_RESPONSE_PATTERN`, `ERROR_PATTERN`) -/

/-- Python `\s` whitespace class. -/
def isWsChar (c : Char) : Bool :=
  c = ' ' || c = '\t' || c = '\n' || c = '\r' || c = '\x0b' || c = '\x0c'

/-- Fold a digit list to its numeric value. -/
def digitsToNat (cs : List Char) : Nat :=
  cs.foldl (fun acc c => 10 * acc + (c.toNat - '0'.toNat)) 0

/-- Match a literal token, returning the rest of the input. -/
def matchLit : List Char → List Char → Option (List Char)
  | [], cs => some cs
  | _ :: _, [] => none
  | l :: ls, c :: cs => if c = l then matchLit ls cs else none

/-- The raw text matched by the regex group `-?\d+\.?\d*`: sign flag, integer
digits, fractional digits. -/
structure RawNum where
  neg : Bool
  intDigits : List Char
  fracDigits : List Char
deriving DecidableEq, Repr

/-- The rational value of a matched decimal literal, i.e. what Python's
`float(...)` yields on the matched group (decimal literals are exact here). -/
def rawVal (r : RawNum) : ℚ :=
  let v : ℚ := (digitsToNat r.intDigits : ℚ) +
    (digitsToNat r.fracDigits : ℚ) / (10 ^ r.fracDigits.length : ℚ)
  if r.neg then -v else v

/-- Greedy match of the regex group `-?\d+\.?\d*` (as `re` matches it inside
`MOVE_RESPONSE_PATTERN`), returning the matched text together with the rest
of the input. -/
def parseNum (cs : List Char) : Option (RawNum × List Char) :=
  let sign : Bool × List Char := match cs with
    | '-' :: rest => (true, rest)
    | _ => (false, cs)
  let intDigits := sign.2.takeWhile (fun c => c.isDigit)
  let afterInt := sign.2.dropWhile (fun c => c.isDigit)
  if intDigits.isEmpty then none
  else
    let frac : List Char × List Char := match afterInt with
      | '.' :: r2 => (r2.takeWhile (fun c => c.isDigit), r2.dropWhile (fun c => c.isDigit))
      | _ => ([], afterInt)
    some (⟨sign.1, intDigits, frac.1⟩, frac.2)

/-- Try `MOVE_RESPONSE_PATTERN` at the current position:
`INFO:\s*LINEAR\s*MOVE:\s*X(-?\d+\.?\d*)\s*Y(-?\d+\.?\d*)\s*Z(-?\d+\.?\d*)`. -/
def matchMoveAt (cs : List Char) : Option (RawNum × RawNum × RawNum) := do
  let cs ← matchLit "INFO:".data cs
  let cs := cs.dropWhile isWsChar
  let cs ← matchLit "LINEAR".data cs
  let cs := cs.dropWhile isWsChar
  let cs ← matchLit "MOVE:".data cs
  let cs := cs.dropWhile isWsChar
  let cs ← matchLit "X".data cs
  let (vx, cs) ← parseNum cs
  let cs := cs.dropWhile isWsChar
  let cs ← matchLit "Y".data cs
  let (vy, cs) ← parseNum cs
  let cs := cs.dropWhile isWsChar
  let cs ← matchLit "Z".data cs
  let (vz, _) ← parseNum cs
  pure (vx, vy, vz)

/-- `MOVE_RESPONSE_PATTERN.search`: leftmost match anywhere in the text. -/
def searchMove : List Char → Option (RawNum × RawNum × RawNum)
  | [] => none
  | c :: rest =>
      match matchMoveAt (c :: rest) with
      | some v => some v
      | none => searchMove rest

/-- Remove a single trailing newline (the implicit `$`-before-final-newline
behaviour of Python's `re`). -/
def chopNl (cs : List Char) : List Char :=
  match cs.getLast? with
  | some '\n' => cs.dropLast
  | _ => cs

/-- Match `\s*(.+)$` (no `re.MULTILINE`): some whitespace prefix, then a
nonempty run of non-newline characters reaching the end of the text (or the
position just before one final newline).  Everything up to and including the
last newline must be whitespace, and at least one character must follow it. -/
def errorTail (r : List Char) : Bool :=
  let u := chopNl r
  let afterRev := u.reverse.takeWhile (fun c => c ≠ '\n')
  let beforeRev := u.reverse.dropWhile (fun c => c ≠ '\n')
  decide (afterRev.length > 0) && beforeRev.all isWsChar

/-- `ERROR_PATTERN.search` with pattern `^ERROR:\s*(.+)$`: since `^` is
anchored (no `re.MULTILINE`), the text must begin with `ERROR:`. -/
def errorMatch (s : String) : Bool :=
  "ERROR:".data.isPrefixOf s.data && errorTail (s.data.drop 6)

/-- Python's `needle in haystack` substring test. -/
def containsSub (needle : List Char) : List Char → Bool
  | [] => needle.isEmpty
  | c :: t => needle.isPrefixOf (c :: t) || containsSub needle t

/-- Python's `str.strip()`. -/
def pyStrip (s : String) : String :=
  ⟨((s.data.dropWhile isWsChar).reverse.dropWhile isWsChar).reverse⟩

/-! ### Tracked-position update (`_parse_move_response`) -/

/-- The slice of driver state that `_parse_move_response` touches: the tracked
logical position (`_status.position`), the work position, and how many times
the `on_position_update` callback has been fired. -/
structure TrackState where
  posX : ℚ
  posY : ℚ
  posZ : ℚ
  workX : ℚ
  workY : ℚ
  workZ : ℚ
  callbackCount : Nat
deriving DecidableEq, Repr

/-- `RobotArmDevice._parse_move_response`: if the response contains a
`LINEAR MOVE` line, convert the firmware triple through `_map_incoming`,
commit all three axes of both positions at once and fire the position-update
callback exactly once; otherwise leave the state untouched. -/
def parse_move_response (cfg : AxisConfig) (st : TrackState) (response : String) :
    TrackState :=
  match searchMove response.data with
  | none => st
  | some (fx, fy, fz) =>
      let l := map_incoming cfg (rawVal fx) (rawVal fy) (rawVal fz)
      { posX := l.1, posY := l.2.1, posZ := l.2.2
        workX := l.1, workY := l.2.1, workZ := l.2.2
        callbackCount := st.callbackCount + 1 }

/-! ### Program run loop (`_run_program`) -/

/-- `base.DeviceState`. -/
inductive DevState where
  | Disconnected
  | Connecting
  | Idle
  | Running
  | Paused
  | Alarm
  | Homing
  | Probing
  | Jog
deriving DecidableEq, Repr

/-- Observable callback firings of the run loop, in order. -/
inductive RunEvent where
  | stateChange (oldState newState : DevState)
  | errorCb (msg : String)
  | jobProgress (pct : ℚ) (line total : Nat)
  | jobComplete (file : String)
deriving DecidableEq, Repr

/-- The slice of `DeviceStatus` that `_run_program` reads and writes. -/
structure RunStatus where
  state : DevState
  errorMessage : Option String
  currentLine : Nat
  progress : ℚ
  events : List RunEvent
deriving DecidableEq, Repr

/-- `DeviceDriver._set_state`: update the state and fire the state-change
callback only when the state actually changes. -/
def setState (st : RunStatus) (s : DevState) : RunStatus :=
  if st.state = s then st
  else { st with state := s, events := st.events ++ [RunEvent.stateChange st.state s] }

/-- `DeviceDriver._set_error`: record the message, go to Alarm, fire the
error callback. -/
def setError (st : RunStatus) (msg : String) : RunStatus :=
  let st1 := setState { st with errorMessage := some msg } DevState.Alarm
  { st1 with events := st1.events ++ [RunEvent.errorCb msg] }

/-- End-of-iteration bookkeeping of `_run_program`: advance the line cursor,
recompute fractional progress, fire the job-progress callback. -/
def progressUpdate (st : RunStatus) (idx total : Nat) : RunStatus :=
  let pct : ℚ := if total > 0 then ((idx : ℚ) / (total : ℚ)) * 100 else 100
  { st with currentLine := idx, progress := pct
            events := st.events ++ [RunEvent.jobProgress pct idx total] }

/-- Is a run-loop event the job-complete notification? -/
def isJobComplete : RunEvent → Bool
  | RunEvent.jobComplete _ => true
  | _ => false

/-- Number of job-complete notifications fired. -/
def countJobComplete (evs : List RunEvent) : Nat :=
  (evs.filter isJobComplete).length

/-- The body of `_run_program`'s `while` loop, executed without pause or stop
requests (the cooperative `_paused`/`_running` flags are never externally
flipped in the scenarios considered): per line, send it and inspect the
response; an `ERROR:` response containing `COMMAND NOT RECOGNIZED` is skipped,
any other `ERROR:` response sets the error (Alarm) and breaks the loop, and
every non-fatal line ends with a progress update.  Axis remapping is the
identity here (the driver's default `_axis_map`), so lines are sent verbatim. -/
def runLoop (respond : String → String) (total : Nat) :
    List String → Nat → RunStatus → RunStatus
  | [], _, st => st
  | line :: rest, idx, st =>
      let response := respond line
      if errorMatch response then
        if containsSub "COMMAND NOT RECOGNIZED".data response.data then
          runLoop respond total rest (idx + 1) (progressUpdate st (idx + 1) total)
        else
          setError st ("G-code hiba (sor " ++ toString (idx + 1) ++ "): " ++ pyStrip response)
      else
        runLoop respond total rest (idx + 1) (progressUpdate st (idx + 1) total)

/-- The completion epilogue of `_run_program`: when the cursor reached
end-of-file, force progress to 100% and fire the job-complete callback; in
every case finish by setting the device state to Idle. -/
def finishRun (st : RunStatus) (total : Nat) (file : String) : RunStatus :=
  let st1 :=
    if st.currentLine ≥ total then
      { st with progress := 100, events := st.events ++ [RunEvent.jobComplete file] }
    else st
  setState st1 DevState.Idle

/-- Status at the moment `run()` spawns `_run_program`: Idle, no error,
cursor and progress reset by `load_file`, no callbacks fired yet. -/
def initialRunStatus : RunStatus :=
  { state := DevState.Idle, errorMessage := none, currentLine := 0
    progress := 0, events := [] }

/-- `_run_program` end to end, from the Idle state `run()` was called in:
enter Running, execute the loop, then the completion epilogue. -/
def runProgram (respond : String → String) (lines : List String) (file : String) :
    RunStatus :=
  finishRun (runLoop respond lines.length lines 0 (setState initialRunStatus DevState.Running))
    lines.length file

/-! ### Kinematics (`kinematics.py`), over exact reals -/

/-- `kinematics.RobotConfig`: the three link lengths in millimetres. -/
structure RobotConfig where
  L1 : ℝ
  L2 : ℝ
  L3 : ℝ

/-- The driver's default `RobotConfig()` (L1=85, L2=140, L3=165). -/
def defaultRobotConfig : RobotConfig :=
  ⟨85, 140, 165⟩

/-- The reason attached to an invalid inverse-kinematics result.  The source
stores Hungarian format strings (`Túl messze: ...` / `Túl közel: ...`); the
embedded numbers cannot be formatted over `ℝ`, so the reason is kept as a tag:
`tooFar` for the too-far message, `tooClose` for the too-close message, `ok`
for the empty error string. -/
inductive IKReason where
  | ok
  | tooFar
  | tooClose
deriving DecidableEq, Repr

/-- `kinematics.JointAngles`: three joint angles in degrees plus the validity
flag and the error reason. -/
structure JointAngles where
  j1 : ℝ
  j2 : ℝ
  j3 : ℝ
  valid : Bool
  error : IKReason

/-- `kinematics.CartesianPosition`: millimetres in the arm base frame. -/
structure CartesianPosition where
  x : ℝ
  y : ℝ
  z : ℝ

/-- `math.radians`. -/
noncomputable def radians (t : ℝ) : ℝ := t * Real.pi / 180

/-- `math.degrees`. -/
noncomputable def degrees (t : ℝ) : ℝ := t * 180 / Real.pi

/-- `math.atan2 y x`, modelled as the argument of the complex number x + y i
(both return the angle in (-pi, pi], with atan2 0 0 = 0). -/
noncomputable def atan2 (y x : ℝ) : ℝ := Complex.arg ⟨x, y⟩

/-- `kinematics.forward_kinematics`: joint angles (degrees) to Cartesian
millimetres, by the planar two-link construction rotated by the base angle. -/
noncomputable def forward_kinematics (j1 j2 j3 : ℝ) (config : RobotConfig) :
    CartesianPosition :=
  let j1_rad := radians j1
  let j2_rad := radians j2
  let j3_rad := radians j3
  let forearm_angle := j2_rad + j3_rad
  let elbow_r := config.L2 * Real.cos j2_rad
  let elbow_z := config.L1 + config.L2 * Real.sin j2_rad
  let gripper_r := elbow_r + config.L3 * Real.cos forearm_angle
  let gripper_z := elbow_z + config.L3 * Real.sin forearm_angle
  ⟨gripper_r * Real.cos j1_rad, gripper_r * Real.sin j1_rad, gripper_z⟩

/-- The distance from the shoulder joint to the target used by the
reachability checks of `inverse_kinematics` (its local `d`). -/
noncomputable def shoulder_dist (x y z : ℝ) (config : RobotConfig) : ℝ :=
  let r := Real.sqrt (x * x + y * y)
  let h := z - config.L1
  Real.sqrt (r * r + h * h)

open Classical in
/-- `kinematics.inverse_kinematics`: Cartesian millimetres to joint angles.
Straight transcription of the source: base angle by `atan2`, reduction to the
(r,h) plane, reachability checks against `L2+L3` and `|L2-L3|` with the
near-zero fold special case, law of cosines for the elbow interior angle
(input clamped to [-1,1]), elbow-up/down branch for `j3`, and law of sines
plus target elevation for `j2`. -/
noncomputable def inverse_kinematics (x y z : ℝ) (config : RobotConfig)
    (elbow_up : Bool := true) : JointAngles :=
  let j1 := degrees (atan2 y x)
  let r := Real.sqrt (x * x + y * y)
  let h := z - config.L1
  let d_sq := r * r + h * h
  let d := Real.sqrt d_sq
  let max_reach := config.L2 + config.L3
  let min_reach := |config.L2 - config.L3|
  if d > max_reach then ⟨j1, 0, 0, false, IKReason.tooFar⟩
  else if d < min_reach ∧ d > 0.001 then ⟨j1, 0, 0, false, IKReason.tooClose⟩
  else if d < 0.001 then ⟨j1, 90, -90, true, IKReason.ok⟩
  else
    let cos_inner := (config.L2 ^ 2 + config.L3 ^ 2 - d_sq) / (2 * config.L2 * config.L3)
    let cos_inner := max (-1) (min 1 cos_inner)
    let inner_angle := Real.arccos cos_inner
    let j3_rad := if elbow_up then -(Real.pi - inner_angle) else Real.pi - inner_angle
    let alpha := atan2 h r
    let sin_beta := config.L3 * Real.sin inner_angle / d
    let sin_beta := max (-1) (min 1 sin_beta)
    let beta := Real.arcsin sin_beta
    let j2_rad := if elbow_up then alpha + beta else alpha - beta
    ⟨j1, degrees j2_rad, degrees j3_rad, true, IKReason.ok⟩

/-- The elbow interior angle computed in the main branch of
`inverse_kinematics` (its local `inner_angle`). -/
noncomputable def ik_inner (x y z : ℝ) (config : RobotConfig) : ℝ :=
  Real.arccos (max (-1) (min 1 ((config.L2 ^ 2 + config.L3 ^ 2 -
    (Real.sqrt (x * x + y * y) * Real.sqrt (x * x + y * y) +
      (z - config.L1) * (z - config.L1))) / (2 * config.L2 * config.L3))))

/-- The target elevation angle computed in the main branch of
`inverse_kinematics` (its local `alpha`). -/
noncomputable def ik_alpha (x y z : ℝ) (config : RobotConfig) : ℝ :=
  atan2 (z - config.L1) (Real.sqrt (x * x + y * y))

/-- The shoulder offset angle computed in the main branch of
`inverse_kinematics` (its local `beta`). -/
noncomputable def ik_beta (x y z : ℝ) (config : RobotConfig) : ℝ :=
  Real.arcsin (max (-1) (min 1 (config.L3 * Real.sin (ik_inner x y z config) /
    Real.sqrt (Real.sqrt (x * x + y * y) * Real.sqrt (x * x + y * y) +
      (z - config.L1) * (z - config.L1)))))

/-! ### Joint-space and Cartesian moves (`move_to_joints`, `move_to_xyz`) -/

/-- Fixed software joint limits of `RobotArmDevice.__init__`
(`_joint_limits`): J1 in [-180,180], J2 in [-90,90], J3 in [-135,135]. -/
def clampJoint (lo hi v : ℝ) : ℝ := max lo (min hi v)

/-- Outcome of a joint/Cartesian move: the driver's boolean result, the
`G1` coordinate triples written to the serial port (in GRBL axis order
X=J2, Y=J3, Z=J1), and the joint triple recorded as `_joint_position` on
success. -/
structure MoveResult where
  ok : Bool
  sent : List (ℝ × ℝ × ℝ)
  recorded : Option (ℝ × ℝ × ℝ)

/-- `RobotArmDevice.move_to_joints`, with the firmware's accept/reject
decision abstracted as `fwOk`: silently clamp each joint into the fixed
limits, send a single `G1 X{j2} Y{j3} Z{j1}` command, and on success record
the clamped angles as the tracked joint position. -/
noncomputable def move_to_joints_run (j1 j2 j3 : ℝ) (fwOk : Bool) : MoveResult :=
  let j1c := clampJoint (-180) 180 j1
  let j2c := clampJoint (-90) 90 j2
  let j3c := clampJoint (-135) 135 j3
  if fwOk then ⟨true, [(j2c, j3c, j1c)], some (j1c, j2c, j3c)⟩
  else ⟨false, [(j2c, j3c, j1c)], none⟩

open Classical in
/-- `RobotArmDevice.move_to_xyz`: run inverse kinematics (elbow-up default);
if the target is unreachable return failure without sending anything,
otherwise delegate to `move_to_joints`. -/
noncomputable def move_to_xyz_run (x y z : ℝ) (config : RobotConfig) (fwOk : Bool) :
    MoveResult :=
  let a := inverse_kinematics x y z config
  if a.valid then move_to_joints_run a.j1 a.j2 a.j3 fwOk
  else ⟨false, [], none⟩

/-! ### Helper accessors used to state the theorems -/

/-- Component of a coordinate triple selected by axis letter. -/
def tripleGet (t : ℚ × ℚ × ℚ) : Axis → ℚ
  | Axis.X => t.1
  | Axis.Y => t.2.1
  | Axis.Z => t.2.2

/-- Clamped value of a `ClampResult` selected by axis letter. -/
def clampVal (r : ClampResult) : Axis → ℚ
  | Axis.X => r.x
  | Axis.Y => r.y
  | Axis.Z => r.z

/-- Touched flag of a `ClampResult` selected by axis letter. -/
def clampTouched (r : ClampResult) : Axis → Bool
  | Axis.X => r.touchedX
  | Axis.Y => r.touchedY
  | Axis.Z => r.touchedZ

/-- Example configuration with a soft limit X in [-90, 90] only (the spec's
clamping scenario). -/
def limitX90Config : AxisConfig :=
  { identityConfig with axisLimits := fun a => if a = Axis.X then some (-90, 90) else none }

/-- Example non-identity configuration: X and Y swapped, X inverted,
scales 2, 3, 1/2. -/
def swapXYConfig : AxisConfig :=
  { axisMap := fun a => match a with
      | Axis.X => Axis.Y
      | Axis.Y => Axis.X
      | Axis.Z => Axis.Z
    axisMapReverse := fun a => match a with
      | Axis.X => Axis.Y
      | Axis.Y => Axis.X
      | Axis.Z => Axis.Z
    axisInvert := fun a => match a with
      | Axis.X => true
      | _ => false
    axisScale := fun a => match a with
      | Axis.X => 2
      | Axis.Y => 3
      | Axis.Z => 1 / 2
    axisLimits := fun _ => none }

end RobotArm

namespace RobotArm

/-! ### C3: the transform pipeline is invertible -/

/-- C3: for every axis configuration whose logical-to-firmware mapping is a
bijection over the three axes (with its precomputed inverse), every
combination of invert flags and all positive scale factors,
`map_incoming` after `map_outgoing` restores the logical triple exactly
(the pipeline scale-invert-map is inverted by unmap-uninvert-unscale). -/
theorem transform_roundtrip (cfg : AxisConfig) (x y z : ℚ)
    (hbij : ∀ a, cfg.axisMapReverse (cfg.axisMap a) = a)
    (hscale : ∀ a, 0 < cfg.axisScale a) :
    map_incoming cfg (map_outgoing cfg x y z).1 (map_outgoing cfg x y z).2.1
      (map_outgoing cfg x y z).2.2 = (x, y, z) := by
  have hX := hbij Axis.X
  have hY := hbij Axis.Y
  have hZ := hbij Axis.Z
  have hsX := (hscale Axis.X).ne'
  have hsY := (hscale Axis.Y).ne'
  have hsZ := (hscale Axis.Z).ne'
  unfold map_incoming map_outgoing apply_invert degrees_to_firmware firmware_to_degrees
  rcases eX : cfg.axisMap Axis.X <;> rcases eY : cfg.axisMap Axis.Y <;>
    rcases eZ : cfg.axisMap Axis.Z <;> simp_all

/-- Witness for C3 at a concrete non-identity configuration and input. -/
theorem transform_roundtrip_witness :
    map_incoming swapXYConfig (map_outgoing swapXYConfig 1 2 3).1
      (map_outgoing swapXYConfig 1 2 3).2.1 (map_outgoing swapXYConfig 1 2 3).2.2
      = (1, 2, 3) :=
  transform_roundtrip swapXYConfig 1 2 3
    (fun a => by cases a <;> rfl)
    (fun a => by cases a <;> norm_num [swapXYConfig])

/-! ### C9: soft-limit clamping -/

/-- C9: `_clamp_to_limits` is per-axis and pure: with no limit configured the
value passes through untouched; with a configured interval, a value below the
minimum snaps to the minimum and is recorded as touched, a value above the
maximum snaps to the maximum and is recorded as touched, and an in-bounds
value passes through with the axis absent from the touched set.  Concretely,
with X limited to [-90, 90], (120, 0, 0) clamps to (90, 0, 0) touching only
X, and an all-in-bounds input touches nothing. -/
theorem clamp_characterization (cfg : AxisConfig) (x y z : ℚ) (a : Axis) :
    (cfg.axisLimits a = none →
      clampVal (clamp_to_limits cfg x y z) a = tripleGet (x, y, z) a ∧
      clampTouched (clamp_to_limits cfg x y z) a = false) ∧
    (∀ lo hi, cfg.axisLimits a = some (lo, hi) → lo ≤ hi →
      (tripleGet (x, y, z) a < lo →
        clampVal (clamp_to_limits cfg x y z) a = lo ∧
        clampTouched (clamp_to_limits cfg x y z) a = true) ∧
      (hi < tripleGet (x, y, z) a →
        clampVal (clamp_to_limits cfg x y z) a = hi ∧
        clampTouched (clamp_to_limits cfg x y z) a = true) ∧
      (lo ≤ tripleGet (x, y, z) a → tripleGet (x, y, z) a ≤ hi →
        clampVal (clamp_to_limits cfg x y z) a = tripleGet (x, y, z) a ∧
        clampTouched (clamp_to_limits cfg x y z) a = false)) ∧
    clamp_to_limits limitX90Config 120 0 0 = ⟨90, 0, 0, true, false, false⟩ ∧
    clamp_to_limits limitX90Config 10 20 30 = ⟨10, 20, 30, false, false, false⟩ := by
  refine ⟨?_, ?_, by decide, by decide⟩
  · intro h
    cases a <;> simp_all [clamp_to_limits, clampAxis, clampVal, clampTouched, tripleGet]
  · intro lo hi h hlohi
    refine ⟨fun hlt => ?_, fun hgt => ?_, fun hge hle => ?_⟩ <;>
      cases a <;>
        simp_all [clamp_to_limits, clampAxis, clampVal, clampTouched, tripleGet] <;>
          split_ifs <;> simp_all <;> linarith

/-- Witness for C9: the no-limit clause applied concretely on axis Y of the
X-limited configuration. -/
theorem clamp_characterization_witness :
    clampVal (clamp_to_limits limitX90Config 120 0 0) Axis.Y = tripleGet (120, 0, 0) Axis.Y ∧
    clampTouched (clamp_to_limits limitX90Config 120 0 0) Axis.Y = false :=
  (clamp_characterization limitX90Config 120 0 0 Axis.Y).1 (by decide)

/-! ### C6: jog computes an isolated absolute target -/

/-- C6: `jog` adds the distance to the tracked logical position on the named
axis only, leaves the other two axes at their current values, and commands
all three axes in one absolute move (the firmware triple is the outgoing
transform of the full target) whenever no soft limit intervenes.  Concretely,
from (10, 20, 30) a jog of +5 on Y commands (10, 25, 30) under the identity
configuration. -/
theorem jog_axis_isolation (cfg : AxisConfig) (px py pz : ℚ) (axis : Axis) (dist : ℚ)
    (hnoclamp :
      (clamp_to_limits cfg (jog_target px py pz axis dist).1
        (jog_target px py pz axis dist).2.1 (jog_target px py pz axis dist).2.2).x =
          (jog_target px py pz axis dist).1 ∧
      (clamp_to_limits cfg (jog_target px py pz axis dist).1
        (jog_target px py pz axis dist).2.1 (jog_target px py pz axis dist).2.2).y =
          (jog_target px py pz axis dist).2.1 ∧
      (clamp_to_limits cfg (jog_target px py pz axis dist).1
        (jog_target px py pz axis dist).2.1 (jog_target px py pz axis dist).2.2).z =
          (jog_target px py pz axis dist).2.2) :
    jog_command cfg px py pz axis dist =
      map_outgoing cfg (jog_target px py pz axis dist).1
        (jog_target px py pz axis dist).2.1 (jog_target px py pz axis dist).2.2 ∧
    tripleGet (jog_target px py pz axis dist) axis = tripleGet (px, py, pz) axis + dist ∧
    (∀ b, b ≠ axis → tripleGet (jog_target px py pz axis dist) b = tripleGet (px, py, pz) b) ∧
    jog_command identityConfig 10 20 30 Axis.Y 5 = (10, 25, 30) := by
  refine ⟨?_, ?_, ?_, ?_⟩
  · show map_outgoing cfg
      (clamp_to_limits cfg (jog_target px py pz axis dist).1
        (jog_target px py pz axis dist).2.1 (jog_target px py pz axis dist).2.2).x
      (clamp_to_limits cfg (jog_target px py pz axis dist).1
        (jog_target px py pz axis dist).2.1 (jog_target px py pz axis dist).2.2).y
      (clamp_to_limits cfg (jog_target px py pz axis dist).1
        (jog_target px py pz axis dist).2.1 (jog_target px py pz axis dist).2.2).z = _
    rw [hnoclamp.1, hnoclamp.2.1, hnoclamp.2.2]
  · cases axis <;> simp [jog_target, tripleGet]
  · intro b hb
    cases axis <;> cases b <;> simp_all [jog_target, tripleGet]
  · norm_num [jog_command, jog_target, clamp_to_limits, clampAxis, map_outgoing,
      apply_invert, degrees_to_firmware, identityConfig]

/-- Witness for C6 at the concrete spec scenario (no limits configured, so
the no-clamp hypothesis holds definitionally). -/
theorem jog_axis_isolation_witness :
    jog_command identityConfig 10 20 30 Axis.Y 5 =
      map_outgoing identityConfig (jog_target 10 20 30 Axis.Y 5).1
        (jog_target 10 20 30 Axis.Y 5).2.1 (jog_target 10 20 30 Axis.Y 5).2.2 ∧
    tripleGet (jog_target 10 20 30 Axis.Y 5) Axis.Y = tripleGet (10, 20, 30) Axis.Y + 5 :=
  ⟨(jog_axis_isolation identityConfig 10 20 30 Axis.Y 5
      (by norm_num [clamp_to_limits, clampAxis, jog_target, identityConfig])).1,
   (jog_axis_isolation identityConfig 10 20 30 Axis.Y 5
      (by norm_num [clamp_to_limits, clampAxis, jog_target, identityConfig])).2.1⟩

/-! ### C7: move-response parsing commits the tracked position -/

/-- C7: the tracked logical position changes only when the response contains
a `LINEAR MOVE` line — any response with no such line (a firmware `ERROR:`
line, an empty/timeout response) leaves the state untouched — and when it
does, all three axes are committed together and the position-update callback
fires exactly once.  Concretely, parsing
`INFO: LINEAR MOVE: X10.00 Y0.00 Z0.00 .` under the identity configuration
sets the position to exactly (10, 0, 0). -/
theorem move_response_parsing :
    (∀ (cfg : AxisConfig) (st : TrackState) (s : String),
      searchMove s.data = none → parse_move_response cfg st s = st) ∧
    (∀ st : TrackState,
      parse_move_response identityConfig st "INFO: LINEAR MOVE: X10.00 Y0.00 Z0.00 ." =
        { posX := 10, posY := 0, posZ := 0, workX := 10, workY := 0, workZ := 0
          callbackCount := st.callbackCount + 1 }) ∧
    searchMove "ERROR: LIMIT EXCEEDED".data = none ∧
    searchMove "".data = none := by
  refine ⟨?_, ?_, by decide, by decide⟩
  · intro cfg st s h
    unfold parse_move_response
    rw [h]
  · intro st
    have h : searchMove "INFO: LINEAR MOVE: X10.00 Y0.00 Z0.00 .".data =
        some (⟨false, ['1', '0'], ['0', '0']⟩, ⟨false, ['0'], ['0', '0']⟩,
          ⟨false, ['0'], ['0', '0']⟩) := by decide
    have h10 : digitsToNat ['1', '0'] = 10 := by decide
    have h0 : digitsToNat ['0'] = 0 := by decide
    have h00 : digitsToNat ['0', '0'] = 0 := by decide
    unfold parse_move_response
    rw [h]
    norm_num [rawVal, h10, h0, h00, map_incoming, apply_invert, firmware_to_degrees,
      identityConfig]

/-- Witness for C7: the no-match clause applied to a firmware error response. -/
theorem move_response_parsing_witness :
    parse_move_response identityConfig ⟨1, 2, 3, 1, 2, 3, 0⟩ "ERROR: LIMIT EXCEEDED" =
      ⟨1, 2, 3, 1, 2, 3, 0⟩ :=
  move_response_parsing.1 identityConfig ⟨1, 2, 3, 1, 2, 3, 0⟩ "ERROR: LIMIT EXCEEDED"
    (by decide)

/-! ### Bookkeeping lemmas for the run-loop model -/

theorem countJobComplete_append (a b : List RunEvent) :
    countJobComplete (a ++ b) = countJobComplete a + countJobComplete b := by
  simp [countJobComplete, List.filter_append]

theorem setState_state (st : RunStatus) (s : DevState) : (setState st s).state = s := by
  unfold setState
  split_ifs with h
  · exact h
  · rfl

theorem setState_errorMessage (st : RunStatus) (s : DevState) :
    (setState st s).errorMessage = st.errorMessage := by
  unfold setState
  split_ifs <;> rfl

theorem setState_currentLine (st : RunStatus) (s : DevState) :
    (setState st s).currentLine = st.currentLine := by
  unfold setState
  split_ifs <;> rfl

theorem setState_progress (st : RunStatus) (s : DevState) :
    (setState st s).progress = st.progress := by
  unfold setState
  split_ifs <;> rfl

theorem setState_countJC (st : RunStatus) (s : DevState) :
    countJobComplete (setState st s).events = countJobComplete st.events := by
  unfold setState
  split_ifs
  · rfl
  · simp [countJobComplete_append, countJobComplete, isJobComplete]

theorem setState_mem (st : RunStatus) (s : DevState) (e : RunEvent) (h : e ∈ st.events) :
    e ∈ (setState st s).events := by
  unfold setState
  split_ifs
  · exact h
  · exact List.mem_append_left _ h

theorem setError_state (st : RunStatus) (msg : String) :
    (setError st msg).state = DevState.Alarm := by
  unfold setError
  exact setState_state _ _

theorem setError_errorMessage (st : RunStatus) (msg : String) :
    (setError st msg).errorMessage = some msg := by
  unfold setError
  rw [setState_errorMessage]

theorem setError_currentLine (st : RunStatus) (msg : String) :
    (setError st msg).currentLine = st.currentLine := by
  unfold setError
  rw [setState_currentLine]

theorem setError_countJC (st : RunStatus) (msg : String) :
    countJobComplete (setError st msg).events = countJobComplete st.events := by
  unfold setError
  rw [countJobComplete_append]
  have h2 : countJobComplete [RunEvent.errorCb msg] = 0 := by
    simp [countJobComplete, isJobComplete]
  rw [h2, Nat.add_zero]
  exact setState_countJC _ _

theorem setError_mem_alarm (st : RunStatus) (msg : String) (h : st.state ≠ DevState.Alarm) :
    RunEvent.stateChange st.state DevState.Alarm ∈ (setError st msg).events := by
  unfold setError setState
  rw [if_neg h]
  simp

theorem progressUpdate_state (st : RunStatus) (idx total : Nat) :
    (progressUpdate st idx total).state = st.state := rfl

theorem progressUpdate_errorMessage (st : RunStatus) (idx total : Nat) :
    (progressUpdate st idx total).errorMessage = st.errorMessage := rfl

theorem progressUpdate_currentLine (st : RunStatus) (idx total : Nat) :
    (progressUpdate st idx total).currentLine = idx := rfl

theorem progressUpdate_countJC (st : RunStatus) (idx total : Nat) :
    countJobComplete (progressUpdate st idx total).events = countJobComplete st.events := by
  unfold progressUpdate
  rw [countJobComplete_append]
  simp [countJobComplete, isJobComplete]

/-- A run over lines whose error responses are all skippable preserves state,
error message and job-complete count, and advances the cursor to the end. -/
theorem runLoop_clean (respond : String → String) (total : Nat) :
    ∀ (lines : List String) (idx : Nat) (st : RunStatus),
      st.currentLine = idx →
      (∀ l ∈ lines, errorMatch (respond l) = true →
        containsSub "COMMAND NOT RECOGNIZED".data (respond l).data = true) →
      (runLoop respond total lines idx st).state = st.state ∧
      (runLoop respond total lines idx st).errorMessage = st.errorMessage ∧
      (runLoop respond total lines idx st).currentLine = idx + lines.length ∧
      countJobComplete (runLoop respond total lines idx st).events =
        countJobComplete st.events := by
  intro lines
  induction lines with
  | nil => intro idx st hcl _; simpa [runLoop] using hcl
  | cons line rest ih =>
      intro idx st hcl h
      have hrest : ∀ l ∈ rest, errorMatch (respond l) = true →
          containsSub "COMMAND NOT RECOGNIZED".data (respond l).data = true :=
        fun l hl => h l (List.mem_cons_of_mem _ hl)
      obtain ⟨ihs, ihm, ihc, ihjc⟩ := ih (idx + 1) (progressUpdate st (idx + 1) total)
        (progressUpdate_currentLine st (idx + 1) total) hrest
      have hred : runLoop respond total (line :: rest) idx st =
          runLoop respond total rest (idx + 1) (progressUpdate st (idx + 1) total) := by
        by_cases he : errorMatch (respond line) = true
        · have hsk := h line (List.mem_cons_self _ _) he
          simp [runLoop, he, hsk]
        · simp [runLoop, he]
      rw [hred]
      refine ⟨?_, ?_, ?_, ?_⟩
      · rw [ihs, progressUpdate_state]
      · rw [ihm, progressUpdate_errorMessage]
      · rw [ihc]
        simp
        omega
      · rw [ihjc, progressUpdate_countJC]

/-- A run that reaches a fatal (non-skippable) error line halts there: the
loop result is in Alarm with the formatted message, the cursor stuck before
the bad line, no job-complete, and a Running-to-Alarm transition on record. -/
theorem runLoop_fatal (respond : String → String) (total : Nat) :
    ∀ (pre : List String) (bad : String) (post : List String) (idx : Nat) (st : RunStatus),
      st.currentLine = idx →
      (∀ l ∈ pre, errorMatch (respond l) = true →
        containsSub "COMMAND NOT RECOGNIZED".data (respond l).data = true) →
      errorMatch (respond bad) = true →
      containsSub "COMMAND NOT RECOGNIZED".data (respond bad).data = false →
      (runLoop respond total (pre ++ bad :: post) idx st).state = DevState.Alarm ∧
      (runLoop respond total (pre ++ bad :: post) idx st).errorMessage =
        some ("G-code hiba (sor " ++ toString (idx + pre.length + 1) ++ "): " ++
          pyStrip (respond bad)) ∧
      (runLoop respond total (pre ++ bad :: post) idx st).currentLine = idx + pre.length ∧
      countJobComplete (runLoop respond total (pre ++ bad :: post) idx st).events =
        countJobComplete st.events ∧
      (st.state ≠ DevState.Alarm →
        RunEvent.stateChange st.state DevState.Alarm ∈
          (runLoop respond total (pre ++ bad :: post) idx st).events) := by
  intro pre
  induction pre with
  | nil =>
      intro bad post idx st hcl _ he hnc
      have hred : runLoop respond total ([] ++ bad :: post) idx st =
          setError st ("G-code hiba (sor " ++ toString (idx + 1) ++ "): " ++
            pyStrip (respond bad)) := by
        simp [runLoop, he, hnc]
      rw [hred]
      refine ⟨setError_state _ _, ?_, ?_, setError_countJC _ _, setError_mem_alarm _ _⟩
      · rw [setError_errorMessage]
        simp
      · rw [setError_currentLine, hcl]
        simp
  | cons line rest ih =>
      intro bad post idx st hcl h he hnc
      have hline := h line (List.mem_cons_self _ _)
      have hrest : ∀ l ∈ rest, errorMatch (respond l) = true →
          containsSub "COMMAND NOT RECOGNIZED".data (respond l).data = true :=
        fun l hl => h l (List.mem_cons_of_mem _ hl)
      obtain ⟨ihs, ihm, ihc, ihjc, ihmem⟩ :=
        ih bad post (idx + 1) (progressUpdate st (idx + 1) total)
          (progressUpdate_currentLine st (idx + 1) total) hrest he hnc
      have hred : runLoop respond total ((line :: rest) ++ bad :: post) idx st =
          runLoop respond total (rest ++ bad :: post) (idx + 1)
            (progressUpdate st (idx + 1) total) := by
        by_cases hel : errorMatch (respond line) = true
        · have hsk := hline hel
          simp [runLoop, hel, hsk]
        · simp [runLoop, hel]
      rw [hred]
      refine ⟨ihs, ?_, ?_, ?_, ?_⟩
      · rw [ihm]
        have : idx + 1 + rest.length + 1 = idx + (line :: rest).length + 1 := by
          simp
          omega
        rw [this]
      · rw [ihc]
        simp
        omega
      · rw [ihjc, progressUpdate_countJC]
      · intro hst
        have := ihmem (by rw [progressUpdate_state]; exact hst)
        rw [progressUpdate_state] at this
        exact this

/-! ### Basic facts about the kinematics embedding -/

theorem radians_degrees (t : ℝ) : radians (degrees t) = t := by
  unfold radians degrees
  field_simp

theorem sqrt_eq_of_sq (a b : ℝ) (hb : 0 ≤ b) (h : b ^ 2 = a) : Real.sqrt a = b := by
  rw [← h, Real.sqrt_sq hb]

theorem radians_zero : radians 0 = 0 := by
  unfold radians
  ring

theorem fk_x (j1 j2 j3 : ℝ) (config : RobotConfig) :
    (forward_kinematics j1 j2 j3 config).x =
      (config.L2 * Real.cos (radians j2) +
        config.L3 * Real.cos (radians j2 + radians j3)) * Real.cos (radians j1) := rfl

theorem fk_y (j1 j2 j3 : ℝ) (config : RobotConfig) :
    (forward_kinematics j1 j2 j3 config).y =
      (config.L2 * Real.cos (radians j2) +
        config.L3 * Real.cos (radians j2 + radians j3)) * Real.sin (radians j1) := rfl

theorem fk_z (j1 j2 j3 : ℝ) (config : RobotConfig) :
    (forward_kinematics j1 j2 j3 config).z =
      config.L1 + config.L2 * Real.sin (radians j2) +
        config.L3 * Real.sin (radians j2 + radians j3) := rfl

theorem shoulder_dist_planar (x z : ℝ) (config : RobotConfig) (hx : 0 ≤ x) :
    shoulder_dist x 0 z config =
      Real.sqrt (x * x + (z - config.L1) * (z - config.L1)) := by
  unfold shoulder_dist
  rw [show x * x + 0 * 0 = x * x by ring]
  rw [show Real.sqrt (x * x) = x from sqrt_eq_of_sq _ _ hx (by ring)]

/-! ### C4: playback skips unrecognized commands, halts on other errors -/

/-- C4 (amended): during playback, every line whose response is an `ERROR:`
line containing `COMMAND NOT RECOGNIZED` is skipped and the run continues to
end-of-file completion with exactly one job-complete event, final progress
100%, no error recorded, and the device back in Idle.  A line whose response
is any other `ERROR:` line halts the run before that line: no job-complete
event fires, the retained error message is the formatted
`G-code hiba (sor N): <response>` text containing the firmware error, and the
device transitions Running to Alarm — transiently, because the run loop's
unconditional epilogue then puts it in Idle (the error message survives). -/
theorem run_program_skip_and_fatal :
    (∀ (respond : String → String) (lines : List String) (file : String),
      lines ≠ [] →
      (∀ l ∈ lines, errorMatch (respond l) = true →
        containsSub "COMMAND NOT RECOGNIZED".data (respond l).data = true) →
      (runProgram respond lines file).currentLine = lines.length ∧
      (runProgram respond lines file).progress = 100 ∧
      countJobComplete (runProgram respond lines file).events = 1 ∧
      (runProgram respond lines file).errorMessage = none ∧
      (runProgram respond lines file).state = DevState.Idle) ∧
    (∀ (respond : String → String) (pre : List String) (bad : String)
        (post : List String) (file : String),
      (∀ l ∈ pre, errorMatch (respond l) = true →
        containsSub "COMMAND NOT RECOGNIZED".data (respond l).data = true) →
      errorMatch (respond bad) = true →
      containsSub "COMMAND NOT RECOGNIZED".data (respond bad).data = false →
      countJobComplete (runProgram respond (pre ++ bad :: post) file).events = 0 ∧
      (runProgram respond (pre ++ bad :: post) file).errorMessage =
        some ("G-code hiba (sor " ++ toString (pre.length + 1) ++ "): " ++
          pyStrip (respond bad)) ∧
      RunEvent.stateChange DevState.Running DevState.Alarm ∈
        (runProgram respond (pre ++ bad :: post) file).events ∧
      (runProgram respond (pre ++ bad :: post) file).currentLine = pre.length ∧
      (runProgram respond (pre ++ bad :: post) file).state = DevState.Idle) := by
  have hst1 : setState initialRunStatus DevState.Running =
      ⟨DevState.Running, none, 0, 0,
        [RunEvent.stateChange DevState.Idle DevState.Running]⟩ := rfl
  have hjc1 : countJobComplete [RunEvent.stateChange DevState.Idle DevState.Running] = 0 := by
    simp [countJobComplete, isJobComplete]
  constructor
  · intro respond lines file hne h
    obtain ⟨hs, hm, hc, hjc⟩ := runLoop_clean respond lines.length lines 0
      (setState initialRunStatus DevState.Running) (by rw [hst1]) h
    set res := runLoop respond lines.length lines 0 (setState initialRunStatus DevState.Running)
      with hres
    have hge : res.currentLine ≥ lines.length := by rw [hc]; omega
    have hrp : runProgram respond lines file =
        setState
          { res with
            progress := 100
            events := res.events ++ [RunEvent.jobComplete file] }
          DevState.Idle := by
      unfold runProgram finishRun
      rw [← hres, if_pos hge]
    rw [hrp]
    refine ⟨?_, ?_, ?_, ?_, ?_⟩
    · rw [setState_currentLine]
      show res.currentLine = lines.length
      rw [hc]
      omega
    · rw [setState_progress]
    · rw [setState_countJC]
      show countJobComplete (res.events ++ [RunEvent.jobComplete file]) = 1
      rw [countJobComplete_append, hjc, hst1]
      simp [countJobComplete, isJobComplete]
    · rw [setState_errorMessage]
      show res.errorMessage = none
      rw [hm, hst1]
    · exact setState_state _ _
  · intro respond pre bad post file hpre he hnc
    obtain ⟨hs, hm, hc, hjc, hmem⟩ := runLoop_fatal respond (pre ++ bad :: post).length
      pre bad post 0 (setState initialRunStatus DevState.Running) (by rw [hst1]) hpre he hnc
    set res := runLoop respond (pre ++ bad :: post).length (pre ++ bad :: post) 0
      (setState initialRunStatus DevState.Running) with hres
    have hlt : ¬ res.currentLine ≥ (pre ++ bad :: post).length := by
      rw [hc]
      simp
    have hrp : runProgram respond (pre ++ bad :: post) file = setState res DevState.Idle := by
      unfold runProgram finishRun
      rw [← hres, if_neg hlt]
    rw [hrp]
    refine ⟨?_, ?_, ?_, ?_, ?_⟩
    · rw [setState_countJC, hjc, hst1]
      exact hjc1
    · rw [setState_errorMessage, hm]
      simp
    · exact setState_mem _ _ _ (hmem (by decide))
    · rw [setState_currentLine, hc]
      omega
    · exact setState_state _ _

/-- Witness for C4: a three-line program whose middle line answers
`ERROR: COMMAND NOT RECOGNIZED` completes with one job-complete event, and a
two-line program whose second line answers `ERROR: LIMIT EXCEEDED` halts with
the formatted message, a Running-to-Alarm transition and no completion. -/
theorem run_program_skip_and_fatal_witness :
    ((runProgram
        (fun l => if l = "M999" then "ERROR: COMMAND NOT RECOGNIZED" else "INFO: MOVE DONE")
        ["G1 X10", "M999", "G1 X20"] "prog.gcode").currentLine = 3 ∧
      (runProgram
        (fun l => if l = "M999" then "ERROR: COMMAND NOT RECOGNIZED" else "INFO: MOVE DONE")
        ["G1 X10", "M999", "G1 X20"] "prog.gcode").progress = 100 ∧
      countJobComplete (runProgram
        (fun l => if l = "M999" then "ERROR: COMMAND NOT RECOGNIZED" else "INFO: MOVE DONE")
        ["G1 X10", "M999", "G1 X20"] "prog.gcode").events = 1 ∧
      (runProgram
        (fun l => if l = "M999" then "ERROR: COMMAND NOT RECOGNIZED" else "INFO: MOVE DONE")
        ["G1 X10", "M999", "G1 X20"] "prog.gcode").errorMessage = none ∧
      (runProgram
        (fun l => if l = "M999" then "ERROR: COMMAND NOT RECOGNIZED" else "INFO: MOVE DONE")
        ["G1 X10", "M999", "G1 X20"] "prog.gcode").state = DevState.Idle) ∧
    (countJobComplete (runProgram
        (fun l => if l = "G1 X999" then "ERROR: LIMIT EXCEEDED" else "INFO: MOVE DONE")
        (["G1 X10"] ++ "G1 X999" :: []) "prog.gcode").events = 0 ∧
      (runProgram
        (fun l => if l = "G1 X999" then "ERROR: LIMIT EXCEEDED" else "INFO: MOVE DONE")
        (["G1 X10"] ++ "G1 X999" :: []) "prog.gcode").errorMessage =
        some ("G-code hiba (sor " ++ toString (1 + 1) ++ "): " ++
          pyStrip ((fun l => if l = "G1 X999" then "ERROR: LIMIT EXCEEDED"
            else "INFO: MOVE DONE") "G1 X999")) ∧
      RunEvent.stateChange DevState.Running DevState.Alarm ∈
        (runProgram
          (fun l => if l = "G1 X999" then "ERROR: LIMIT EXCEEDED" else "INFO: MOVE DONE")
          (["G1 X10"] ++ "G1 X999" :: []) "prog.gcode").events) := by
  constructor
  · exact run_program_skip_and_fatal.1
      (fun l => if l = "M999" then "ERROR: COMMAND NOT RECOGNIZED" else "INFO: MOVE DONE")
      ["G1 X10", "M999", "G1 X20"] "prog.gcode" (by decide) (by decide)
  · have h := run_program_skip_and_fatal.2
      (fun l => if l = "G1 X999" then "ERROR: LIMIT EXCEEDED" else "INFO: MOVE DONE")
      ["G1 X10"] "G1 X999" [] "prog.gcode" (by decide) (by decide) (by decide)
    exact ⟨h.1, h.2.1, h.2.2.1⟩

/-! ### Branch reductions of `inverse_kinematics` -/

theorem default_max_reach : defaultRobotConfig.L2 + defaultRobotConfig.L3 = (305 : ℝ) := by
  show (140 : ℝ) + 165 = 305
  norm_num

theorem default_min_reach : |defaultRobotConfig.L2 - defaultRobotConfig.L3| = (25 : ℝ) := by
  show |(140 : ℝ) - 165| = 25
  rw [show (140 : ℝ) - 165 = -25 by norm_num, abs_neg, abs_of_pos (by norm_num : (0:ℝ) < 25)]

theorem ik_eq_too_far (x y z : ℝ) (config : RobotConfig) (elbow : Bool)
    (h : shoulder_dist x y z config > config.L2 + config.L3) :
    inverse_kinematics x y z config elbow =
      ⟨degrees (atan2 y x), 0, 0, false, IKReason.tooFar⟩ := by
  simp only [shoulder_dist] at h
  simp only [inverse_kinematics]
  rw [if_pos h]

theorem ik_eq_too_close (x y z : ℝ) (config : RobotConfig) (elbow : Bool)
    (h1 : ¬ shoulder_dist x y z config > config.L2 + config.L3)
    (h2 : shoulder_dist x y z config < |config.L2 - config.L3| ∧
      shoulder_dist x y z config > 0.001) :
    inverse_kinematics x y z config elbow =
      ⟨degrees (atan2 y x), 0, 0, false, IKReason.tooClose⟩ := by
  simp only [shoulder_dist] at h1 h2
  simp only [inverse_kinematics]
  rw [if_neg h1, if_pos h2]

theorem ik_eq_fold (x y z : ℝ) (config : RobotConfig) (elbow : Bool)
    (h1 : ¬ shoulder_dist x y z config > config.L2 + config.L3)
    (h2 : ¬ (shoulder_dist x y z config < |config.L2 - config.L3| ∧
      shoulder_dist x y z config > 0.001))
    (h3 : shoulder_dist x y z config < 0.001) :
    inverse_kinematics x y z config elbow =
      ⟨degrees (atan2 y x), 90, -90, true, IKReason.ok⟩ := by
  simp only [shoulder_dist] at h1 h2 h3
  simp only [inverse_kinematics]
  rw [if_neg h1, if_neg h2, if_pos h3]

theorem ik_eq_main (x y z : ℝ) (config : RobotConfig) (elbow : Bool)
    (h1 : ¬ shoulder_dist x y z config > config.L2 + config.L3)
    (h2 : ¬ (shoulder_dist x y z config < |config.L2 - config.L3| ∧
      shoulder_dist x y z config > 0.001))
    (h3 : ¬ shoulder_dist x y z config < 0.001) :
    inverse_kinematics x y z config elbow =
      ⟨degrees (atan2 y x),
       degrees (if elbow then ik_alpha x y z config + ik_beta x y z config
         else ik_alpha x y z config - ik_beta x y z config),
       degrees (if elbow then -(Real.pi - ik_inner x y z config)
         else Real.pi - ik_inner x y z config),
       true, IKReason.ok⟩ := by
  simp only [shoulder_dist] at h1 h2 h3
  simp only [inverse_kinematics]
  rw [if_neg h1, if_neg h2, if_neg h3]
  rfl

theorem ik_main_valid (x y z : ℝ) (config : RobotConfig) (elbow : Bool)
    (h1 : ¬ shoulder_dist x y z config > config.L2 + config.L3)
    (h2 : ¬ (shoulder_dist x y z config < |config.L2 - config.L3| ∧
      shoulder_dist x y z config > 0.001))
    (h3 : ¬ shoulder_dist x y z config < 0.001) :
    (inverse_kinematics x y z config elbow).valid = true ∧
    (inverse_kinematics x y z config elbow).error = IKReason.ok := by
  rw [ik_eq_main x y z config elbow h1 h2 h3]
  exact ⟨rfl, rfl⟩

/-! ### C2: reachability boundaries of inverse kinematics -/

/-- C2: with the default configuration (L2+L3 = 305, |L2-L3| = 25),
`inverse_kinematics` reports an invalid too-far result exactly when the
shoulder distance exceeds 305 (so d = 305 is valid), an invalid too-close
result exactly when 0.001 < d < 25, and for d < 0.001 returns the fixed fold
(j2 = 90, j3 = -90) with valid = true. -/
theorem ik_reachability_boundaries (x y z : ℝ) (elbow : Bool) :
    ((inverse_kinematics x y z defaultRobotConfig elbow).valid = false ∧
      (inverse_kinematics x y z defaultRobotConfig elbow).error = IKReason.tooFar ↔
      shoulder_dist x y z defaultRobotConfig > 305) ∧
    ((inverse_kinematics x y z defaultRobotConfig elbow).valid = false ∧
      (inverse_kinematics x y z defaultRobotConfig elbow).error = IKReason.tooClose ↔
      0.001 < shoulder_dist x y z defaultRobotConfig ∧
        shoulder_dist x y z defaultRobotConfig < 25) ∧
    (shoulder_dist x y z defaultRobotConfig < 0.001 →
      inverse_kinematics x y z defaultRobotConfig elbow =
        ⟨degrees (atan2 y x), 90, -90, true, IKReason.ok⟩) ∧
    (shoulder_dist x y z defaultRobotConfig = 305 →
      (inverse_kinematics x y z defaultRobotConfig elbow).valid = true) := by
  rcases lt_trichotomy (shoulder_dist x y z defaultRobotConfig) 305 with hfar | hfar | hfar
  · by_cases hclose : shoulder_dist x y z defaultRobotConfig < 25 ∧
        shoulder_dist x y z defaultRobotConfig > 0.001
    · rw [ik_eq_too_close x y z defaultRobotConfig elbow
        (by rw [default_max_reach, not_lt]; linarith)
        (by rw [default_min_reach]; exact hclose)]
      refine ⟨?_, ?_, ?_, ?_⟩
      · simp only [show (JointAngles.mk (degrees (atan2 y x)) 0 0 false
          IKReason.tooClose).valid = false from rfl]
        simp
        linarith
      · simp
        exact ⟨hclose.2, hclose.1⟩
      · intro h
        exact absurd hclose.2 (asymm h)
      · intro h
        exact absurd hclose.1 (by rw [h]; norm_num)
    · by_cases hfold : shoulder_dist x y z defaultRobotConfig < 0.001
      · rw [ik_eq_fold x y z defaultRobotConfig elbow
          (by rw [default_max_reach, not_lt]; linarith)
          (by rw [default_min_reach]; exact hclose) hfold]
        refine ⟨?_, ?_, fun _ => rfl, fun _ => rfl⟩
        · simp
          linarith
        · simp
          intro h1
          linarith
      · obtain ⟨hv, he⟩ := ik_main_valid x y z defaultRobotConfig elbow
          (by rw [default_max_reach, not_lt]; linarith)
          (by rw [default_min_reach]; exact hclose) hfold
        refine ⟨?_, ?_, fun h => absurd h hfold, fun _ => hv⟩
        · simp [hv]
          linarith
        · simp [hv]
          intro h1
          by_contra hcon
          push_neg at hcon
          exact hclose ⟨hcon, h1⟩
  · obtain ⟨hv, he⟩ := ik_main_valid x y z defaultRobotConfig elbow
      (by rw [default_max_reach, not_lt, hfar])
      (by rw [default_min_reach]; rintro ⟨hlt, -⟩; rw [hfar] at hlt; norm_num at hlt)
      (by rw [not_lt, hfar]; norm_num)
    refine ⟨?_, ?_, ?_, fun _ => hv⟩
    · simp [hv]
      rw [hfar]
    · simp [hv]
      intro h1
      rw [hfar]
      norm_num
    · intro h
      rw [hfar] at h
      norm_num at h
  · rw [ik_eq_too_far x y z defaultRobotConfig elbow
      (by rw [default_max_reach]; exact hfar)]
    refine ⟨?_, ?_, ?_, ?_⟩
    · simp
      exact hfar
    · simp
      intro h1
      linarith
    · intro h
      linarith
    · intro h
      rw [h] at hfar
      exact absurd hfar (lt_irrefl _)

/-- Witness for C2, applied at the points (400, 0, 85) (too far: d = 400) and
(10, 0, 85) (too close: d = 10). -/
theorem ik_reachability_boundaries_witness :
    ((inverse_kinematics 400 0 85 defaultRobotConfig true).valid = false ∧
      (inverse_kinematics 400 0 85 defaultRobotConfig true).error = IKReason.tooFar) ∧
    ((inverse_kinematics 10 0 85 defaultRobotConfig true).valid = false ∧
      (inverse_kinematics 10 0 85 defaultRobotConfig true).error = IKReason.tooClose) := by
  have h400 : shoulder_dist 400 0 85 defaultRobotConfig = 400 := by
    rw [shoulder_dist_planar 400 85 defaultRobotConfig (by norm_num)]
    exact sqrt_eq_of_sq _ _ (by norm_num) (by show (400 : ℝ)^2 = 400*400 + (85-85)*(85-85); norm_num)
  have h10 : shoulder_dist 10 0 85 defaultRobotConfig = 10 := by
    rw [shoulder_dist_planar 10 85 defaultRobotConfig (by norm_num)]
    exact sqrt_eq_of_sq _ _ (by norm_num) (by show (10 : ℝ)^2 = 10*10 + (85-85)*(85-85); norm_num)
  constructor
  · exact (ik_reachability_boundaries 400 0 85 true).1.mpr (by rw [h400]; norm_num)
  · exact (ik_reachability_boundaries 10 0 85 true).2.1.mpr (by rw [h10]; norm_num)

/-! ### C8: Cartesian moves are gated by inverse kinematics -/

/-- C8: `move_to_xyz` returns failure without sending any move command (and
without recording a position) whenever inverse kinematics reports the target
unreachable — no clamped substitute is commanded — and for a valid result it
delegates to `move_to_joints` with the computed joint angles. -/
theorem move_to_xyz_gating (x y z : ℝ) (config : RobotConfig) (fwOk : Bool) :
    ((inverse_kinematics x y z config).valid = false →
      move_to_xyz_run x y z config fwOk = ⟨false, [], none⟩) ∧
    ((inverse_kinematics x y z config).valid = true →
      move_to_xyz_run x y z config fwOk =
        move_to_joints_run (inverse_kinematics x y z config).j1
          (inverse_kinematics x y z config).j2
          (inverse_kinematics x y z config).j3 fwOk) := by
  constructor
  · intro h
    simp [move_to_xyz_run, h]
  · intro h
    simp [move_to_xyz_run, h]

/-- Witness for C8: the unreachable target (400, 0, 85) (d = 400 > 305) sends
nothing; the reachable target (250, 0, 85) (d = 250) delegates. -/
theorem move_to_xyz_gating_witness :
    move_to_xyz_run 400 0 85 defaultRobotConfig true = ⟨false, [], none⟩ ∧
    move_to_xyz_run 250 0 85 defaultRobotConfig true =
      move_to_joints_run (inverse_kinematics 250 0 85 defaultRobotConfig).j1
        (inverse_kinematics 250 0 85 defaultRobotConfig).j2
        (inverse_kinematics 250 0 85 defaultRobotConfig).j3 true := by
  have h400 : shoulder_dist 400 0 85 defaultRobotConfig = 400 := by
    rw [shoulder_dist_planar 400 85 defaultRobotConfig (by norm_num)]
    exact sqrt_eq_of_sq _ _ (by norm_num)
      (by show (400 : ℝ)^2 = 400*400 + (85-85)*(85-85); norm_num)
  have h250 : shoulder_dist 250 0 85 defaultRobotConfig = 250 := by
    rw [shoulder_dist_planar 250 85 defaultRobotConfig (by norm_num)]
    exact sqrt_eq_of_sq _ _ (by norm_num)
      (by show (250 : ℝ)^2 = 250*250 + (85-85)*(85-85); norm_num)
  constructor
  · refine (move_to_xyz_gating 400 0 85 defaultRobotConfig true).1 ?_
    rw [ik_eq_too_far 400 0 85 defaultRobotConfig true
      (by rw [h400, default_max_reach]; norm_num)]
  · refine (move_to_xyz_gating 250 0 85 defaultRobotConfig true).2 ?_
    exact (ik_main_valid 250 0 85 defaultRobotConfig true
      (by rw [h250, default_max_reach]; norm_num)
      (by rw [h250, default_min_reach]; rintro ⟨h1, -⟩; norm_num at h1)
      (by rw [h250]; norm_num)).1

/-! ### C10: move_to_joints silently clamps into the fixed joint limits -/

/-- C10: `move_to_joints` clamps each joint into J1 in [-180,180], J2 in
[-90,90], J3 in [-135,135] before issuing the G1 command (GRBL axis order
X=J2, Y=J3, Z=J1) and on success records the clamped, not the requested,
angles.  Consequently the Cartesian target (100, 0, 85) — valid for inverse
kinematics but with j3 < -135 — is commanded with the clamped value -135 in
the j3 slot rather than rejected. -/
theorem move_to_joints_clamps (j1 j2 j3 : ℝ) (fwOk : Bool) :
    (move_to_joints_run j1 j2 j3 fwOk).sent =
      [(clampJoint (-90) 90 j2, clampJoint (-135) 135 j3, clampJoint (-180) 180 j1)] ∧
    (fwOk = true → (move_to_joints_run j1 j2 j3 fwOk).recorded =
      some (clampJoint (-180) 180 j1, clampJoint (-90) 90 j2, clampJoint (-135) 135 j3)) ∧
    (inverse_kinematics 100 0 85 defaultRobotConfig).valid = true ∧
    (inverse_kinematics 100 0 85 defaultRobotConfig).j3 < -135 ∧
    (move_to_xyz_run 100 0 85 defaultRobotConfig fwOk).sent =
      [(clampJoint (-90) 90 (inverse_kinematics 100 0 85 defaultRobotConfig).j2, -135,
        clampJoint (-180) 180 (inverse_kinematics 100 0 85 defaultRobotConfig).j1)] := by
  have h100 : shoulder_dist 100 0 85 defaultRobotConfig = 100 := by
    rw [shoulder_dist_planar 100 85 defaultRobotConfig (by norm_num)]
    exact sqrt_eq_of_sq _ _ (by norm_num)
      (by show (100 : ℝ)^2 = 100*100 + (85-85)*(85-85); norm_num)
  have hmain := ik_eq_main 100 0 85 defaultRobotConfig true
    (by rw [h100, default_max_reach]; norm_num)
    (by rw [h100, default_min_reach]; rintro ⟨h1, -⟩; norm_num at h1)
    (by rw [h100]; norm_num)
  have hvalid := ik_main_valid 100 0 85 defaultRobotConfig true
    (by rw [h100, default_max_reach]; norm_num)
    (by rw [h100, default_min_reach]; rintro ⟨h1, -⟩; norm_num at h1)
    (by rw [h100]; norm_num)
  have harg : ((140:ℝ)^2 + 165^2 - (Real.sqrt (100 * 100 + 0 * 0) *
      Real.sqrt (100 * 100 + 0 * 0) + ((85:ℝ) - 85) * ((85:ℝ) - 85))) / (2 * 140 * 165) =
      491 / 616 := by
    rw [show Real.sqrt ((100:ℝ) * 100 + 0 * 0) = 100 from
      sqrt_eq_of_sq _ _ (by norm_num) (by norm_num)]
    norm_num
  have hinner : ik_inner 100 0 85 defaultRobotConfig = Real.arccos (491 / 616) := by
    unfold ik_inner
    simp only [defaultRobotConfig]
    rw [harg]
    rw [min_eq_right (by norm_num : (491 : ℝ) / 616 ≤ 1),
      max_eq_right (by norm_num : (-1 : ℝ) ≤ 491 / 616)]
  have hsqrt2 : Real.sqrt 2 / 2 < 491 / 616 := by
    rw [div_lt_iff (by norm_num : (0:ℝ) < 2)]
    rw [show (491 : ℝ) / 616 * 2 = 491 / 308 by norm_num]
    rw [show Real.sqrt 2 < 491 / 308 ↔ (2:ℝ) < (491/308)^2 from
      Real.sqrt_lt' (by norm_num)]
    norm_num
  have harccos_pi4 : Real.arccos (Real.sqrt 2 / 2) = Real.pi / 4 := by
    rw [← Real.cos_pi_div_four]
    exact Real.arccos_cos (by positivity) (by linarith [Real.pi_pos])
  have hinner_lt : ik_inner 100 0 85 defaultRobotConfig < Real.pi / 4 := by
    rw [hinner, ← harccos_pi4]
    refine Real.strictAntiOn_arccos ⟨?_, ?_⟩ ⟨by norm_num, by norm_num⟩ hsqrt2
    · have := Real.sqrt_nonneg 2
      linarith
    · have h2 : Real.sqrt 2 ≤ 2 := by
        nlinarith [Real.sq_sqrt (by norm_num : (0:ℝ) ≤ 2), Real.sqrt_nonneg 2]
      linarith
  have hj3 : (inverse_kinematics 100 0 85 defaultRobotConfig).j3 < -135 := by
    rw [hmain]
    show degrees (if true then -(Real.pi - ik_inner 100 0 85 defaultRobotConfig)
      else Real.pi - ik_inner 100 0 85 defaultRobotConfig) < -135
    rw [if_pos rfl]
    unfold degrees
    rw [div_lt_iff Real.pi_pos]
    nlinarith [hinner_lt, Real.pi_pos]
  refine ⟨?_, ?_, hvalid.1, hj3, ?_⟩
  · unfold move_to_joints_run
    split_ifs <;> rfl
  · intro h
    unfold move_to_joints_run
    rw [if_pos h]
  · have hdeleg : move_to_xyz_run 100 0 85 defaultRobotConfig fwOk =
        move_to_joints_run (inverse_kinematics 100 0 85 defaultRobotConfig).j1
          (inverse_kinematics 100 0 85 defaultRobotConfig).j2
          (inverse_kinematics 100 0 85 defaultRobotConfig).j3 fwOk := by
      simp [move_to_xyz_run, hvalid.1]
    rw [hdeleg]
    have hclamp : clampJoint (-135) 135 (inverse_kinematics 100 0 85 defaultRobotConfig).j3 =
        -135 := by
      unfold clampJoint
      rw [min_eq_right (by linarith : (inverse_kinematics 100 0 85 defaultRobotConfig).j3 ≤ 135),
        max_eq_left (by linarith :
          (inverse_kinematics 100 0 85 defaultRobotConfig).j3 ≤ -135)]
    rw [← hclamp]
    unfold move_to_joints_run
    split_ifs <;> rfl

/-- Witness for C10: a joint request outside every limit is commanded and
recorded clamped. -/
theorem move_to_joints_clamps_witness :
    (move_to_joints_run 200 50 (-150) true).sent =
      [(clampJoint (-90) 90 50, clampJoint (-135) 135 (-150), clampJoint (-180) 180 200)] ∧
    (move_to_joints_run 200 50 (-150) true).recorded =
      some (clampJoint (-180) 180 200, clampJoint (-90) 90 50, clampJoint (-135) 135 (-150)) :=
  ⟨(move_to_joints_clamps 200 50 (-150) true).1,
   (move_to_joints_clamps 200 50 (-150) true).2.1 rfl⟩

/-! ### The planar two-link identities behind the inverse kinematics -/

/-- For a triangle with sides `L2`, `L3`, `d` (triangle inequalities given by
`hmin`/`hmax`) whose shoulder angle is non-obtuse (`hobt`), the law-of-cosines
elbow angle `arccos c` and the law-of-sines shoulder offset `arcsin s`
computed by `inverse_kinematics` satisfy: the clamps to [-1,1] are no-ops,
and the two-link arm closes exactly on the target:
`L2 cos β - L3 cos (β + inner) = d` and `L2 sin β - L3 sin (β + inner) = 0`. -/
theorem ik_planar_core (L2 L3 d c s : ℝ) (hL2 : 0 < L2) (hL3 : 0 < L3) (hd : 0 < d)
    (hmin : |L2 - L3| ≤ d) (hmax : d ≤ L2 + L3) (hobt : L3 ^ 2 ≤ L2 ^ 2 + d ^ 2)
    (hc : c = (L2 ^ 2 + L3 ^ 2 - d ^ 2) / (2 * L2 * L3))
    (hs : s = L3 * Real.sin (Real.arccos c) / d) :
    max (-1) (min 1 c) = c ∧
    max (-1) (min 1 (L3 * Real.sin (Real.arccos c) / d)) =
      L3 * Real.sin (Real.arccos c) / d ∧
    L2 * Real.cos (Real.arcsin s) -
      L3 * Real.cos (Real.arcsin s + Real.arccos c) = d ∧
    L2 * Real.sin (Real.arcsin s) -
      L3 * Real.sin (Real.arcsin s + Real.arccos c) = 0 := by
  have hdsq : (L2 - L3) ^ 2 ≤ d ^ 2 := by
    have h := mul_self_le_mul_self (abs_nonneg (L2 - L3)) hmin
    rw [abs_mul_abs_self] at h
    nlinarith [h]
  have h1c : -1 ≤ c := by
    rw [hc, le_div_iff (by positivity)]
    nlinarith [hmax, hd.le]
  have h2c : c ≤ 1 := by
    rw [hc, div_le_one (by positivity)]
    nlinarith [hdsq]
  have hcos : Real.cos (Real.arccos c) = c := Real.cos_arccos h1c h2c
  have hsin : Real.sin (Real.arccos c) = Real.sqrt (1 - c ^ 2) := Real.sin_arccos c
  set q := Real.sqrt (1 - c ^ 2) with hqdef
  have hq0 : 0 ≤ q := Real.sqrt_nonneg _
  have hq2 : q ^ 2 = 1 - c ^ 2 := Real.sq_sqrt (by nlinarith [h1c, h2c])
  have hsq' : s = L3 * q / d := by rw [hs, hsin]
  have hcc : c * (2 * L2 * L3) = L2 ^ 2 + L3 ^ 2 - d ^ 2 := by
    rw [hc]
    field_simp
  have hcc2 : (L2 ^ 2 + L3 ^ 2 - d ^ 2) ^ 2 = c ^ 2 * (4 * L2 ^ 2 * L3 ^ 2) := by
    linear_combination (-(c * (2 * L2 * L3)) - (L2 ^ 2 + L3 ^ 2 - d ^ 2)) * hcc
  have hq2' : 4 * L2 ^ 2 * L3 ^ 2 * q ^ 2 =
      4 * L2 ^ 2 * L3 ^ 2 - (L2 ^ 2 + L3 ^ 2 - d ^ 2) ^ 2 := by
    linear_combination 4 * L2 ^ 2 * L3 ^ 2 * hq2 + hcc2
  have hKey : (L3 * q) ^ 2 ≤ d ^ 2 := by
    nlinarith [hq2', sq_nonneg (d ^ 2 + L2 ^ 2 - L3 ^ 2), mul_pos hL2 hL2, sq_nonneg q]
  have hL3q : L3 * q ≤ d := by
    nlinarith [hKey, hd, mul_nonneg hL3.le hq0]
  have hs0 : 0 ≤ s := by
    rw [hsq']
    positivity
  have hs1 : s ≤ 1 := by
    rw [hsq', div_le_one hd]
    exact hL3q
  have hm1s : (-1 : ℝ) ≤ s := by linarith
  have hsinb : Real.sin (Real.arcsin s) = s := Real.sin_arcsin hm1s hs1
  have hcosb : Real.cos (Real.arcsin s) = Real.sqrt (1 - s ^ 2) := Real.cos_arcsin s
  have hAnn : 0 ≤ d ^ 2 + L2 ^ 2 - L3 ^ 2 := by linarith [hobt]
  have h1s : 1 - s ^ 2 = ((d ^ 2 + L2 ^ 2 - L3 ^ 2) / (2 * L2 * d)) ^ 2 := by
    rw [hsq']
    field_simp
    linear_combination (-(d ^ 2)) * hq2'
  have hcosb_val : Real.cos (Real.arcsin s) = (d ^ 2 + L2 ^ 2 - L3 ^ 2) / (2 * L2 * d) := by
    rw [hcosb, h1s, Real.sqrt_sq (by positivity)]
  refine ⟨?_, ?_, ?_, ?_⟩
  · rw [min_eq_right h2c, max_eq_right h1c]
  · rw [hsin]
    have hub : L3 * q / d ≤ 1 := by rw [div_le_one hd]; exact hL3q
    have hlb : (-1 : ℝ) ≤ L3 * q / d :=
      le_trans (by norm_num) (by positivity : (0 : ℝ) ≤ L3 * q / d)
    rw [min_eq_right hub, max_eq_right hlb]
  · rw [Real.cos_add, hsinb, hcosb_val, hcos, hsin, hsq']
    field_simp
    linear_combination (4 * L2 ^ 2 * d ^ 2 * L3 ^ 2) * hq2 -
      (2 * L2 * d ^ 2 * (L2 + L3 * c)) * hcc
  · rw [Real.sin_add, hsinb, hcosb_val, hcos, hsin, hsq']
    field_simp
    linear_combination (-(L3 * q * d ^ 2)) * hcc

/-- Rotating the closed planar two-link chain by the base elevation: both the
elbow-up branch (`j2 = α + β`, `j3 = inner - π`) and the elbow-down branch
(`j2 = α - β`, `j3 = π - inner`) place the end of the chain at distance `d`
in direction `α`. -/
theorem planar_rotate (α β inner d L2 L3 : ℝ)
    (hp1 : L2 * Real.cos β - L3 * Real.cos (β + inner) = d)
    (hp2 : L2 * Real.sin β - L3 * Real.sin (β + inner) = 0) :
    (L2 * Real.cos (α + β) + L3 * Real.cos (α + β + -(Real.pi - inner)) =
      d * Real.cos α) ∧
    (L2 * Real.sin (α + β) + L3 * Real.sin (α + β + -(Real.pi - inner)) =
      d * Real.sin α) ∧
    (L2 * Real.cos (α - β) + L3 * Real.cos (α - β + (Real.pi - inner)) =
      d * Real.cos α) ∧
    (L2 * Real.sin (α - β) + L3 * Real.sin (α - β + (Real.pi - inner)) =
      d * Real.sin α) := by
  rw [Real.cos_add] at hp1
  rw [Real.sin_add] at hp2
  refine ⟨?_, ?_, ?_, ?_⟩ <;>
    simp only [Real.cos_add, Real.sin_add, Real.cos_sub, Real.sin_sub, Real.cos_neg,
      Real.sin_neg, Real.cos_pi_sub, Real.sin_pi_sub, Real.cos_pi, Real.sin_pi]
  · linear_combination Real.cos α * hp1 - Real.sin α * hp2
  · linear_combination Real.sin α * hp1 + Real.cos α * hp2
  · linear_combination Real.cos α * hp1 + Real.sin α * hp2
  · linear_combination Real.sin α * hp1 - Real.cos α * hp2

/-- In the main branch (reachable target, non-degenerate distance), with the
shoulder angle of the target triangle non-obtuse (`hobt`), inverse kinematics
is exact: `forward_kinematics` of its joint angles reproduces the target for
both elbow branches. -/
theorem fk_ik_roundtrip_core (x y z : ℝ) (config : RobotConfig) (elbow : Bool)
    (hL2 : 0 < config.L2) (hL3 : 0 < config.L3)
    (hmin : |config.L2 - config.L3| < shoulder_dist x y z config)
    (hmax : shoulder_dist x y z config ≤ config.L2 + config.L3)
    (h001 : ¬ shoulder_dist x y z config < 0.001)
    (hobt : config.L3 ^ 2 ≤ config.L2 ^ 2 + shoulder_dist x y z config ^ 2) :
    (inverse_kinematics x y z config elbow).valid = true ∧
    forward_kinematics (inverse_kinematics x y z config elbow).j1
      (inverse_kinematics x y z config elbow).j2
      (inverse_kinematics x y z config elbow).j3 config =
      ⟨x, y, z⟩ := by
  have hd : 0 < shoulder_dist x y z config := lt_of_le_of_lt (abs_nonneg _) hmin
  have hik := ik_eq_main x y z config elbow (not_lt.mpr hmax)
    (fun hcon => absurd hcon.1 (not_lt.mpr hmin.le)) h001
  have hraw0 : 0 ≤ Real.sqrt (x * x + y * y) * Real.sqrt (x * x + y * y) +
      (z - config.L1) * (z - config.L1) := by
    have := Real.sqrt_nonneg (x * x + y * y)
    nlinarith [sq_nonneg (z - config.L1)]
  have hd2 : shoulder_dist x y z config ^ 2 =
      Real.sqrt (x * x + y * y) * Real.sqrt (x * x + y * y) +
        (z - config.L1) * (z - config.L1) := by
    show Real.sqrt (Real.sqrt (x * x + y * y) * Real.sqrt (x * x + y * y) +
      (z - config.L1) * (z - config.L1)) ^ 2 = _
    exact Real.sq_sqrt hraw0
  obtain ⟨hclampc, hclamps, hp1, hp2⟩ := ik_planar_core config.L2 config.L3
    (shoulder_dist x y z config)
    ((config.L2 ^ 2 + config.L3 ^ 2 - shoulder_dist x y z config ^ 2) /
      (2 * config.L2 * config.L3))
    (config.L3 * Real.sin (Real.arccos
      ((config.L2 ^ 2 + config.L3 ^ 2 - shoulder_dist x y z config ^ 2) /
        (2 * config.L2 * config.L3))) / shoulder_dist x y z config)
    hL2 hL3 hd hmin.le hmax hobt rfl rfl
  have hinner_eq : ik_inner x y z config = Real.arccos
      ((config.L2 ^ 2 + config.L3 ^ 2 - shoulder_dist x y z config ^ 2) /
        (2 * config.L2 * config.L3)) := by
    unfold ik_inner
    rw [← hd2, hclampc]
  have hden : Real.sqrt (Real.sqrt (x * x + y * y) * Real.sqrt (x * x + y * y) +
      (z - config.L1) * (z - config.L1)) = shoulder_dist x y z config := rfl
  have hbeta_eq : ik_beta x y z config = Real.arcsin
      (config.L3 * Real.sin (Real.arccos
        ((config.L2 ^ 2 + config.L3 ^ 2 - shoulder_dist x y z config ^ 2) /
          (2 * config.L2 * config.L3))) / shoulder_dist x y z config) := by
    unfold ik_beta
    rw [hinner_eq, hden, hclamps]
  obtain ⟨hr1, hr2, hr3, hr4⟩ := planar_rotate (ik_alpha x y z config)
    (Real.arcsin (config.L3 * Real.sin (Real.arccos
      ((config.L2 ^ 2 + config.L3 ^ 2 - shoulder_dist x y z config ^ 2) /
        (2 * config.L2 * config.L3))) / shoulder_dist x y z config))
    (Real.arccos ((config.L2 ^ 2 + config.L3 ^ 2 - shoulder_dist x y z config ^ 2) /
      (2 * config.L2 * config.L3)))
    (shoulder_dist x y z config) config.L2 config.L3 hp1 hp2
  have habs : Complex.abs ⟨Real.sqrt (x * x + y * y), z - config.L1⟩ =
      shoulder_dist x y z config := by
    rw [Complex.abs_apply, Complex.normSq_mk]
    exact hden
  have hzne : (⟨Real.sqrt (x * x + y * y), z - config.L1⟩ : ℂ) ≠ 0 := by
    intro h0
    rw [h0] at habs
    simp at habs
    rw [← habs] at hd
    exact lt_irrefl _ hd
  have hcosa : shoulder_dist x y z config * Real.cos (ik_alpha x y z config) =
      Real.sqrt (x * x + y * y) := by
    unfold ik_alpha atan2
    rw [Complex.cos_arg hzne, habs]
    field_simp
  have hsina : shoulder_dist x y z config * Real.sin (ik_alpha x y z config) =
      z - config.L1 := by
    unfold ik_alpha atan2
    rw [Complex.sin_arg, habs]
    field_simp
  have hgr : config.L2 * Real.cos (radians
        (inverse_kinematics x y z config elbow).j2) +
      config.L3 * Real.cos (radians (inverse_kinematics x y z config elbow).j2 +
        radians (inverse_kinematics x y z config elbow).j3) =
      Real.sqrt (x * x + y * y) := by
    rw [hik]
    show config.L2 * Real.cos (radians (degrees _)) +
      config.L3 * Real.cos (radians (degrees _) + radians (degrees _)) = _
    rw [radians_degrees, radians_degrees]
    cases elbow
    · simp only [Bool.false_eq_true, if_false]
      rw [hbeta_eq, hinner_eq]
      rw [← hcosa]
      exact hr3
    · simp only [if_true]
      rw [hbeta_eq, hinner_eq]
      rw [← hcosa]
      exact hr1
  have hgz : config.L2 * Real.sin (radians
        (inverse_kinematics x y z config elbow).j2) +
      config.L3 * Real.sin (radians (inverse_kinematics x y z config elbow).j2 +
        radians (inverse_kinematics x y z config elbow).j3) =
      z - config.L1 := by
    rw [hik]
    show config.L2 * Real.sin (radians (degrees _)) +
      config.L3 * Real.sin (radians (degrees _) + radians (degrees _)) = _
    rw [radians_degrees, radians_degrees]
    cases elbow
    · simp only [Bool.false_eq_true, if_false]
      rw [hbeta_eq, hinner_eq]
      rw [← hsina]
      exact hr4
    · simp only [if_true]
      rw [hbeta_eq, hinner_eq]
      rw [← hsina]
      exact hr2
  have hj1 : radians (inverse_kinematics x y z config elbow).j1 = atan2 y x := by
    rw [hik]
    exact radians_degrees _
  refine ⟨by rw [hik], ?_⟩
  show CartesianPosition.mk _ _ _ = _
  rw [CartesianPosition.mk.injEq]
  rw [hj1]
  have habsxy : Complex.abs ⟨x, y⟩ = Real.sqrt (x * x + y * y) := by
    rw [Complex.abs_apply, Complex.normSq_mk]
  refine ⟨?_, ?_, ?_⟩
  · rw [hgr]
    by_cases hxy : (⟨x, y⟩ : ℂ) = 0
    · have hx0 : x = 0 := by
        have := congrArg Complex.re hxy
        simpa using this
      have hy0 : y = 0 := by
        have := congrArg Complex.im hxy
        simpa using this
      rw [hx0, hy0]
      simp
    · unfold atan2
      rw [Complex.cos_arg hxy, habsxy]
      have hA : Real.sqrt (x * x + y * y) ≠ 0 := by
        rw [← habsxy]
        simpa using hxy
      field_simp
  · rw [hgr]
    by_cases hxy : (⟨x, y⟩ : ℂ) = 0
    · have hx0 : x = 0 := by
        have := congrArg Complex.re hxy
        simpa using this
      have hy0 : y = 0 := by
        have := congrArg Complex.im hxy
        simpa using this
      rw [hx0, hy0]
      simp
    · unfold atan2
      rw [Complex.sin_arg, habsxy]
      have hA : Real.sqrt (x * x + y * y) ≠ 0 := by
        rw [← habsxy]
        simpa using hxy
      field_simp
  · have := hgz
    linarith [hgz]

/-! ### C1: the kinematics round trip -/

/-- C1 (amended): for every target whose shoulder distance d satisfies
`|L2-L3| < d < L2+L3` and `0.001 ≤ d`, and whose target triangle has a
non-obtuse shoulder angle (`L3^2 ≤ L2^2 + d^2` — automatic when `L3 ≤ L2`,
and for the default configuration the extra requirement `d ≥ √(L3²-L2²)`),
composing `forward_kinematics` with the angles returned by
`inverse_kinematics` reconstructs the target exactly — in particular within
0.1 mm — for both elbow branches.  For closer targets the law-of-sines
`asin` picks the supplementary shoulder angle and the round trip fails (see
the counterexample). -/
theorem ik_fk_roundtrip_nonobtuse (x y z : ℝ) (config : RobotConfig) (elbow : Bool)
    (hL2 : 0 < config.L2) (hL3 : 0 < config.L3)
    (hmin : |config.L2 - config.L3| < shoulder_dist x y z config)
    (hmax : shoulder_dist x y z config < config.L2 + config.L3)
    (h001 : 0.001 ≤ shoulder_dist x y z config)
    (hobt : config.L3 ^ 2 ≤ config.L2 ^ 2 + shoulder_dist x y z config ^ 2) :
    (inverse_kinematics x y z config elbow).valid = true ∧
    forward_kinematics (inverse_kinematics x y z config elbow).j1
      (inverse_kinematics x y z config elbow).j2
      (inverse_kinematics x y z config elbow).j3 config = ⟨x, y, z⟩ ∧
    ((forward_kinematics (inverse_kinematics x y z config elbow).j1
        (inverse_kinematics x y z config elbow).j2
        (inverse_kinematics x y z config elbow).j3 config).x - x) ^ 2 +
      ((forward_kinematics (inverse_kinematics x y z config elbow).j1
        (inverse_kinematics x y z config elbow).j2
        (inverse_kinematics x y z config elbow).j3 config).y - y) ^ 2 +
      ((forward_kinematics (inverse_kinematics x y z config elbow).j1
        (inverse_kinematics x y z config elbow).j2
        (inverse_kinematics x y z config elbow).j3 config).z - z) ^ 2 ≤
      (0.1 : ℝ) ^ 2 := by
  obtain ⟨hv, heq⟩ := fk_ik_roundtrip_core x y z config elbow hL2 hL3 hmin hmax.le
    (not_lt.mpr h001) hobt
  refine ⟨hv, heq, ?_⟩
  rw [heq]
  norm_num

/-- Witness for C1 at the target (250, 0, 85) (d = 250, non-obtuse triangle)
on the elbow-down branch. -/
theorem ik_fk_roundtrip_nonobtuse_witness :
    (inverse_kinematics 250 0 85 defaultRobotConfig false).valid = true ∧
    forward_kinematics (inverse_kinematics 250 0 85 defaultRobotConfig false).j1
      (inverse_kinematics 250 0 85 defaultRobotConfig false).j2
      (inverse_kinematics 250 0 85 defaultRobotConfig false).j3 defaultRobotConfig =
      ⟨250, 0, 85⟩ := by
  have h250 : shoulder_dist 250 0 85 defaultRobotConfig = 250 := by
    rw [shoulder_dist_planar 250 85 defaultRobotConfig (by norm_num)]
    exact sqrt_eq_of_sq _ _ (by norm_num)
      (by show (250 : ℝ)^2 = 250*250 + (85-85)*(85-85); norm_num)
  have h := ik_fk_roundtrip_nonobtuse 250 0 85 defaultRobotConfig false
    (by norm_num [defaultRobotConfig]) (by norm_num [defaultRobotConfig])
    (by rw [default_min_reach, h250]; norm_num)
    (by rw [h250, default_max_reach]; norm_num)
    (by rw [h250]; norm_num)
    (by rw [h250]; norm_num [defaultRobotConfig])
  exact ⟨h.1, h.2.1⟩

/-- Counterexample for C1 as frozen: the reachable target (50, 0, 85) has
shoulder distance d = 50 with `|L2-L3| = 25 < 50 < 305 = L2+L3`, yet the
round trip misses it by more than 13 mm (far beyond 0.1 mm), because the
shoulder angle of the target triangle is obtuse and `asin` returns its
supplement. -/
theorem ik_fk_roundtrip_fails_close :
    ¬ (((forward_kinematics (inverse_kinematics 50 0 85 defaultRobotConfig true).j1
          (inverse_kinematics 50 0 85 defaultRobotConfig true).j2
          (inverse_kinematics 50 0 85 defaultRobotConfig true).j3
          defaultRobotConfig).x - 50) ^ 2 +
        ((forward_kinematics (inverse_kinematics 50 0 85 defaultRobotConfig true).j1
          (inverse_kinematics 50 0 85 defaultRobotConfig true).j2
          (inverse_kinematics 50 0 85 defaultRobotConfig true).j3
          defaultRobotConfig).y - 0) ^ 2 +
        ((forward_kinematics (inverse_kinematics 50 0 85 defaultRobotConfig true).j1
          (inverse_kinematics 50 0 85 defaultRobotConfig true).j2
          (inverse_kinematics 50 0 85 defaultRobotConfig true).j3
          defaultRobotConfig).z - 85) ^ 2 ≤ (0.1 : ℝ) ^ 2) := by
  have hsqrt50 : Real.sqrt ((50:ℝ) * 50 + 0 * 0) = 50 :=
    sqrt_eq_of_sq _ _ (by norm_num) (by norm_num)
  have h50 : shoulder_dist 50 0 85 defaultRobotConfig = 50 := by
    rw [shoulder_dist_planar 50 85 defaultRobotConfig (by norm_num)]
    exact sqrt_eq_of_sq _ _ (by norm_num)
      (by show (50 : ℝ)^2 = 50*50 + (85-85)*(85-85); norm_num)
  have hd50 : Real.sqrt (Real.sqrt ((50:ℝ) * 50 + 0 * 0) * Real.sqrt ((50:ℝ) * 50 + 0 * 0) +
      ((85:ℝ) - 85) * ((85:ℝ) - 85)) = 50 := by
    rw [hsqrt50]
    exact sqrt_eq_of_sq _ _ (by norm_num) (by norm_num)
  have hik50 := ik_eq_main 50 0 85 defaultRobotConfig true
    (by rw [h50, default_max_reach]; norm_num)
    (by rw [h50, default_min_reach]; norm_num)
    (by rw [h50]; norm_num)
  have hik50' : inverse_kinematics 50 0 85 defaultRobotConfig true =
      ⟨degrees (atan2 0 50),
       degrees (ik_alpha 50 0 85 defaultRobotConfig + ik_beta 50 0 85 defaultRobotConfig),
       degrees (-(Real.pi - ik_inner 50 0 85 defaultRobotConfig)),
       true, IKReason.ok⟩ := by
    rw [hik50]
    simp
  have harg50 : ((140:ℝ)^2 + 165^2 - (Real.sqrt (50 * 50 + 0 * 0) *
      Real.sqrt (50 * 50 + 0 * 0) + ((85:ℝ) - 85) * ((85:ℝ) - 85))) / (2 * 140 * 165) =
      591 / 616 := by
    rw [hsqrt50]
    norm_num
  have hinner50 : ik_inner 50 0 85 defaultRobotConfig = Real.arccos (591 / 616) := by
    unfold ik_inner
    simp only [defaultRobotConfig]
    rw [harg50]
    rw [min_eq_right (by norm_num : (591 : ℝ) / 616 ≤ 1),
      max_eq_right (by norm_num : (-1 : ℝ) ≤ 591 / 616)]
  set Q := Real.sin (Real.arccos ((591:ℝ) / 616)) with hQdef
  have hQ2 : Q ^ 2 = 30175 / 379456 := by
    rw [hQdef, Real.sin_arccos, Real.sq_sqrt (by norm_num)]
    norm_num
  have hQ0 : 0 ≤ Q := by
    rw [hQdef, Real.sin_arccos]
    exact Real.sqrt_nonneg _
  have hQle : Q ≤ 10 / 33 := by
    nlinarith [hQ2, sq_nonneg (Q - 10 / 33)]
  have hle1 : 33 * Q / 10 ≤ 1 := by linarith
  have hgem1 : (-1 : ℝ) ≤ 33 * Q / 10 := by
    have : (0:ℝ) ≤ 33 * Q / 10 := by positivity
    linarith
  have hbeta50 : ik_beta 50 0 85 defaultRobotConfig = Real.arcsin (33 * Q / 10) := by
    unfold ik_beta
    rw [hinner50, ← hQdef]
    simp only [defaultRobotConfig]
    rw [hd50]
    rw [show (165:ℝ) * Q / 50 = 33 * Q / 10 by ring]
    rw [min_eq_right hle1, max_eq_right hgem1]
  have hsinb : Real.sin (Real.arcsin (33 * Q / 10)) = 33 * Q / 10 :=
    Real.sin_arcsin hgem1 hle1
  have hcosb : Real.cos (Real.arcsin (33 * Q / 10)) = 41 / 112 := by
    rw [Real.cos_arcsin]
    rw [show (1:ℝ) - (33 * Q / 10)^2 = (41/112)^2 from by
      linear_combination (-(1089/100 : ℝ)) * hQ2]
    exact Real.sqrt_sq (by norm_num)
  have halpha50 : ik_alpha 50 0 85 defaultRobotConfig = 0 := by
    unfold ik_alpha atan2
    simp only [defaultRobotConfig]
    rw [Complex.arg_eq_zero_iff]
    exact ⟨Real.sqrt_nonneg _, by norm_num⟩
  have hatan2_50 : atan2 0 50 = 0 := by
    unfold atan2
    rw [Complex.arg_eq_zero_iff]
    exact ⟨by norm_num, rfl⟩
  have hpx : (forward_kinematics (inverse_kinematics 50 0 85 defaultRobotConfig true).j1
      (inverse_kinematics 50 0 85 defaultRobotConfig true).j2
      (inverse_kinematics 50 0 85 defaultRobotConfig true).j3
      defaultRobotConfig).x = 13887775 / 379456 := by
    rw [fk_x]
    simp only [hik50']
    simp only [radians_degrees]
    rw [halpha50, hbeta50, hinner50, hatan2_50, zero_add]
    rw [Real.cos_zero, mul_one]
    rw [show Real.arcsin (33 * Q / 10) + -(Real.pi - Real.arccos ((591:ℝ) / 616)) =
      Real.arcsin (33 * Q / 10) + Real.arccos ((591:ℝ) / 616) - Real.pi by ring]
    rw [Real.cos_sub_pi]
    rw [Real.cos_add, hcosb, hsinb]
    rw [Real.cos_arccos (by norm_num) (by norm_num)]
    rw [← hQdef]
    show (140:ℝ) * (41 / 112) + 165 * -(41 / 112 * (591 / 616) - 33 * Q / 10 * Q) = _
    linear_combination (165 * 33 / 10 : ℝ) * hQ2
  push_neg
  have hx2 : ((forward_kinematics (inverse_kinematics 50 0 85 defaultRobotConfig true).j1
      (inverse_kinematics 50 0 85 defaultRobotConfig true).j2
      (inverse_kinematics 50 0 85 defaultRobotConfig true).j3
      defaultRobotConfig).x - 50) ^ 2 = (5085025 / 379456 : ℝ) ^ 2 := by
    rw [hpx]
    norm_num
  nlinarith [hx2,
    sq_nonneg ((forward_kinematics (inverse_kinematics 50 0 85 defaultRobotConfig true).j1
      (inverse_kinematics 50 0 85 defaultRobotConfig true).j2
      (inverse_kinematics 50 0 85 defaultRobotConfig true).j3
      defaultRobotConfig).y - 0),
    sq_nonneg ((forward_kinematics (inverse_kinematics 50 0 85 defaultRobotConfig true).j1
      (inverse_kinematics 50 0 85 defaultRobotConfig true).j2
      (inverse_kinematics 50 0 85 defaultRobotConfig true).j3
      defaultRobotConfig).z - 85)]

/-! ### C5: concrete kinematics scenarios for the default configuration -/

theorem radians_45 : radians 45 = Real.pi / 4 := by
  unfold radians
  ring

theorem sqrt_two_lb : (1.41421 : ℝ) < Real.sqrt 2 :=
  (Real.lt_sqrt (by norm_num)).mpr (by norm_num)

theorem sqrt_two_ub : Real.sqrt 2 < 1.41422 :=
  (Real.sqrt_lt' (by norm_num)).mpr (by norm_num)

theorem fk_shoulder45_x :
    (forward_kinematics 0 45 0 defaultRobotConfig).x = 305 * (Real.sqrt 2 / 2) := by
  rw [fk_x, radians_zero, radians_45, add_zero, Real.cos_zero, mul_one,
    Real.cos_pi_div_four]
  show (140:ℝ) * (Real.sqrt 2 / 2) + 165 * (Real.sqrt 2 / 2) = _
  ring

theorem fk_shoulder45_z :
    (forward_kinematics 0 45 0 defaultRobotConfig).z = 85 + 305 * (Real.sqrt 2 / 2) := by
  rw [fk_z, radians_zero, radians_45, add_zero, Real.sin_pi_div_four]
  show (85:ℝ) + 140 * (Real.sqrt 2 / 2) + 165 * (Real.sqrt 2 / 2) = _
  ring

/-- C5 (amended): with L1=85, L2=140, L3=165: `forward_kinematics(0,0,0)`
returns exactly (305, 0, 85); `forward_kinematics(0,45,0)` returns the
gripper position x = 305·√2/2 ≈ 215.7, y = 0, z = 85 + 305·√2/2 ≈ 300.7
(within 0.5 mm of those values — not the spec's 99.0/184.0, which are the
elbow coordinates); and `inverse_kinematics(200,0,150)` is valid and its
forward image is exactly (200, 0, 150), in particular within 0.1 mm. -/
theorem fk_concrete_scenarios :
    forward_kinematics 0 0 0 defaultRobotConfig = ⟨305, 0, 85⟩ ∧
    |(forward_kinematics 0 45 0 defaultRobotConfig).x - 215.7| ≤ 0.5 ∧
    (forward_kinematics 0 45 0 defaultRobotConfig).y = 0 ∧
    |(forward_kinematics 0 45 0 defaultRobotConfig).z - 300.7| ≤ 0.5 ∧
    (inverse_kinematics 200 0 150 defaultRobotConfig).valid = true ∧
    forward_kinematics (inverse_kinematics 200 0 150 defaultRobotConfig).j1
      (inverse_kinematics 200 0 150 defaultRobotConfig).j2
      (inverse_kinematics 200 0 150 defaultRobotConfig).j3 defaultRobotConfig =
      ⟨200, 0, 150⟩ := by
  have h200 : shoulder_dist 200 0 150 defaultRobotConfig = Real.sqrt 44225 := by
    rw [shoulder_dist_planar 200 150 defaultRobotConfig (by norm_num)]
    rw [show (200:ℝ) * 200 + (150 - defaultRobotConfig.L1) * (150 - defaultRobotConfig.L1) =
      44225 from by norm_num [defaultRobotConfig]]
  have hd_lb : (25:ℝ) < Real.sqrt 44225 := (Real.lt_sqrt (by norm_num)).mpr (by norm_num)
  have hd_ub : Real.sqrt 44225 < 305 := (Real.sqrt_lt' (by norm_num)).mpr (by norm_num)
  obtain ⟨hv, heq⟩ := fk_ik_roundtrip_core 200 0 150 defaultRobotConfig true
    (by norm_num [defaultRobotConfig]) (by norm_num [defaultRobotConfig])
    (by rw [default_min_reach, h200]; exact hd_lb)
    (by rw [h200, default_max_reach]; exact hd_ub.le)
    (by rw [h200]; push_neg; linarith)
    (by rw [h200, Real.sq_sqrt (by norm_num : (0:ℝ) ≤ 44225)]
        norm_num [defaultRobotConfig])
  refine ⟨?_, ?_, ?_, ?_, hv, heq⟩
  · show CartesianPosition.mk _ _ _ = _
    rw [CartesianPosition.mk.injEq]
    rw [radians_zero, Real.cos_zero, Real.sin_zero]
    norm_num
    exact ⟨default_max_reach, rfl⟩
  · rw [fk_shoulder45_x, abs_le]
    constructor
    · nlinarith [sqrt_two_lb]
    · nlinarith [sqrt_two_ub]
  · rw [fk_y, radians_zero, Real.sin_zero, mul_zero]
  · rw [fk_shoulder45_z, abs_le]
    constructor
    · nlinarith [sqrt_two_lb]
    · nlinarith [sqrt_two_ub]

/-- Counterexample for C5 as frozen: `forward_kinematics(0,45,0)` does not
return x ≈ 99.0 within 0.5 mm — the code returns the gripper position
(x ≈ 215.7); the spec's 99.0/184.0 are the elbow coordinates
(140·cos 45°, 85 + 140·sin 45°). -/
theorem fk_shoulder45_not_spec :
    ¬ |(forward_kinematics 0 45 0 defaultRobotConfig).x - 99| ≤ 0.5 := by
  push_neg
  have hgt : (0.5:ℝ) < (forward_kinematics 0 45 0 defaultRobotConfig).x - 99 := by
    rw [fk_shoulder45_x]
    nlinarith [sqrt_two_lb]
  exact lt_of_lt_of_le hgt (le_abs_self _)

/-- Counterexample for C4 as frozen: after a fatal `ERROR: LIMIT EXCEEDED`
line the device does not end up in Alarm (the run-loop epilogue resets it to
Idle), and the retained message is not the bare firmware text but the
formatted `G-code hiba (sor 2): ...` string. -/
theorem run_program_fatal_not_alarm :
    (runProgram
      (fun l => if l = "G1 X999" then "ERROR: LIMIT EXCEEDED" else "INFO: MOVE DONE")
      ["G1 X10", "G1 X999"] "prog.gcode").state ≠ DevState.Alarm ∧
    (runProgram
      (fun l => if l = "G1 X999" then "ERROR: LIMIT EXCEEDED" else "INFO: MOVE DONE")
      ["G1 X10", "G1 X999"] "prog.gcode").errorMessage ≠ some "ERROR: LIMIT EXCEEDED" ∧
    (runProgram
      (fun l => if l = "G1 X999" then "ERROR: LIMIT EXCEEDED" else "INFO: MOVE DONE")
      ["G1 X10", "G1 X999"] "prog.gcode").errorMessage =
      some "G-code hiba (sor 2): ERROR: LIMIT EXCEEDED" := by
  refine ⟨by decide, by decide, by decide⟩

end RobotArm
